import Mathlib

/-!
Shallow embedding of the Ecosys agent-simulation engine
(`src/backend/models/species.py`, `src/backend/models/ecosystem.py`,
`src/backend/engine/simulation.py`).

Python floats are modelled as exact real numbers (`ℝ`), integers as `ℕ`/`ℝ`
following their use in the source.  Python object identity (`is`, default
`!=`) is modelled by a numeric object id `oid` carried by every entity.
Calls to `random.*` are modelled by explicit draw parameters threaded into
the operations that consume them; theorems quantify over the draws.
-/

noncomputable section

/-- Python `float('inf')` sentinel of `find_nearest_food` is modelled by an
`Option` accumulator; a 2D coordinate as in `species.py`. -/
structure Position where
  x : ℝ
  y : ℝ

/-- `Position.distance_to`: Euclidean distance. -/
def Position.distance_to (p q : Position) : ℝ :=
  Real.sqrt ((p.x - q.x) ^ 2 + (p.y - q.y) ^ 2)

/-- Fields of the Python `Species` base class (`species.py` lines 24-36).
`oid` models Python object identity. -/
structure SpeciesBase where
  oid : ℕ
  position : Position
  energy : ℝ
  max_energy : ℝ
  age : ℕ
  max_age : ℕ
  alive : Bool
  reproduction_cooldown : ℕ
  death_reason : Option String
  reproduction_energy_cost : ℝ

/-- `Species.__init__`: note `self.energy = reproduction_energy_cost` and
`self.max_energy = energy*4`. -/
def mkSpeciesBase (oid : ℕ) (position : Position) (energy : ℝ) (max_age : ℕ)
    (reproduction_energy_cost : ℝ) : SpeciesBase :=
  { oid := oid
    position := position
    energy := reproduction_energy_cost
    max_energy := energy * 4
    age := 0
    max_age := max_age
    alive := true
    reproduction_cooldown := 0
    death_reason := none
    reproduction_energy_cost := reproduction_energy_cost }

/-- `Species.die(reason)`: records the death reason only once. -/
def SpeciesBase.die (s : SpeciesBase) (reason : String) : SpeciesBase :=
  if s.alive then { s with alive := false, death_reason := some reason } else s

/-- `Species.age_one_step`: increment age, die of "Old age" when `age ≥ max_age`. -/
def SpeciesBase.age_one_step (s : SpeciesBase) : SpeciesBase :=
  let s1 : SpeciesBase := { s with age := s.age + 1 }
  if s1.age ≥ s1.max_age then s1.die ("Old age") else s1

/-- `Species.update`: no-op when dead, otherwise decrement a positive
reproduction cooldown (natural subtraction matches the guarded decrement). -/
def SpeciesBase.updateBase (s : SpeciesBase) : SpeciesBase :=
  if !s.alive then s
  else if s.reproduction_cooldown > 0 then
    { s with reproduction_cooldown := s.reproduction_cooldown - 1 }
  else s

/-- `Species.can_reproduce`. -/
def SpeciesBase.canReproduceBase (s : SpeciesBase) : Prop :=
  s.alive = true ∧ s.energy ≥ s.reproduction_energy_cost * 2 ∧ s.reproduction_cooldown ≤ 0

instance (s : SpeciesBase) : Decidable s.canReproduceBase :=
  inferInstanceAs (Decidable (_ ∧ _ ∧ _))

/-- Fields added by the Python `Animal` subclass (`species.py` lines 95-110). -/
structure AnimalExt where
  movement_speed : ℝ
  energy_consumption : ℝ
  hunting_range : ℝ
  hunting_success_rate : ℝ
  detection_range : ℝ
  hunting_cooldown : ℕ
  hunting_cooldown_duration : ℕ

/-- `Animal.__init__` (hunting cooldown starts at 0). -/
def mkAnimalExt (movement_speed energy_consumption hunting_range hunting_success_rate
    detection_range : ℝ) (hunting_cooldown_duration : ℕ) : AnimalExt :=
  { movement_speed := movement_speed
    energy_consumption := energy_consumption
    hunting_range := hunting_range
    hunting_success_rate := hunting_success_rate
    detection_range := detection_range
    hunting_cooldown := 0
    hunting_cooldown_duration := hunting_cooldown_duration }

/-- The `Grass` producer: base fields plus its growth/competition constants. -/
structure Grass where
  base : SpeciesBase
  base_growth_rate : ℝ
  reproduction_chance : ℝ
  competition_radius : ℝ
  max_competition_effect : ℝ

/-- `Grass.__init__`: `energy=40, max_age=2000, reproduction_energy_cost=40`,
growth constants 0.9 / 0.4 / 30.0 / 0.9. -/
def mkGrass (oid : ℕ) (position : Position) : Grass :=
  { base := mkSpeciesBase oid position 40 2000 40
    base_growth_rate := 9 / 10
    reproduction_chance := 2 / 5
    competition_radius := 30
    max_competition_effect := 9 / 10 }

/-- The `Cow` herbivore; `eating_range` aliases `hunting_range`. -/
structure Cow where
  base : SpeciesBase
  anim : AnimalExt
  eating_range : ℝ

/-- `Cow.__init__`: `energy=400, max_age=4000, reproduction_energy_cost=400`,
speed 3.0, consumption 2, hunting range 5.0, success rate 1.0, detection 800. -/
def mkCow (oid : ℕ) (position : Position) : Cow :=
  { base := mkSpeciesBase oid position 400 4000 400
    anim := mkAnimalExt 3 2 5 1 800 0
    eating_range := 5 }

/-- The `Tiger` carnivore. -/
structure Tiger where
  base : SpeciesBase
  anim : AnimalExt

/-- `Tiger.__init__`: `energy=4000, max_age=8000, reproduction_energy_cost=4000`,
speed 4.0, consumption 20, hunting range 6.0, success rate 0.2, detection 1000,
hunting cooldown duration 4. -/
def mkTiger (oid : ℕ) (position : Position) : Tiger :=
  { base := mkSpeciesBase oid position 4000 8000 4000
    anim := mkAnimalExt 4 20 6 (1 / 5) 1000 4 }

/-- The ephemeral tick context handed to every `update`/`reproduce` call
(`EcosystemState.get_ecosystem_state`).  `grassPositionsArr = none` models the
`grass_positions_array` key being absent from the state bag. -/
structure Ctx where
  world_width : ℝ
  world_height : ℝ
  grass_list : List Grass
  cow_list : List Cow
  tiger_list : List Tiger
  grassPositionsArr : Option (List Position)
  aliveGrassObjs : List Grass

/-- `Grass.calculate_nearby_grass_density_optimized`: vectorised path over the
precomputed position array, excluding `self` by object identity through the
index mask, normalising the in-radius count by `π·r²/400`. -/
def Grass.calcDensityOpt (g : Grass) (ctx : Ctx) : ℝ :=
  let arr := ctx.grassPositionsArr.getD []
  if arr.length = 0 then 0
  else
    let filtered :=
      match ctx.aliveGrassObjs.findIdx? (fun x => x.base.oid == g.base.oid) with
      | some i => arr.eraseIdx i
      | none => arr
    if filtered.length = 0 then 0
    else
      let cnt := filtered.countP (fun p => decide (g.base.position.distance_to p ≤ g.competition_radius))
      min 1 ((cnt : ℝ) / (Real.pi * g.competition_radius ^ 2 / 400))

/-- Fallback body of `Grass.calculate_nearby_grass_density` (the linear scan
used when the `grass_positions_array` key is absent), excluding `self` and dead
grass, normalising the in-radius count by `π·r²/100`. -/
def Grass.calcDensityFallback (g : Grass) (ctx : Ctx) : ℝ :=
  if ctx.grass_list.isEmpty then 0
  else
    let others := ctx.grass_list.filter (fun x => !(x.base.oid == g.base.oid) && x.base.alive)
    if others.isEmpty then 0
    else
      let cnt := others.countP
        (fun x => decide (g.base.position.distance_to x.base.position ≤ g.competition_radius))
      min 1 ((cnt : ℝ) / (Real.pi * g.competition_radius ^ 2 / 100))

/-- `Grass.calculate_nearby_grass_density`: dispatches on the presence of the
precomputed array. -/
def Grass.calcDensity (g : Grass) (ctx : Ctx) : ℝ :=
  if ctx.grassPositionsArr.isSome then g.calcDensityOpt ctx else g.calcDensityFallback ctx

/-- `Grass.get_competition_adjusted_growth_rate`: competition factor
`1 − density^0.3 · max_competition_effect`, overridden to `2.0` at density 0,
floored at 1% of the base rate. -/
def Grass.adjustedGrowthRate (g : Grass) (ctx : Ctx) : ℝ :=
  let density := g.calcDensity ctx
  let competition_factor :=
    if density = 0 then 2 else 1 - density ^ ((3 : ℝ) / 10) * g.max_competition_effect
  let adjusted := g.base_growth_rate * competition_factor
  max (g.base_growth_rate * (1 / 100)) adjusted

/-- `Grass.update`: base cooldown handling, growth clamped to `max_energy`,
aging, and the (redundant, idempotent) second old-age check `self.die()` with
the default reason. -/
def Grass.update (g : Grass) (ctx : Ctx) : Grass :=
  let g1 : Grass := { g with base := g.base.updateBase }
  if !g1.base.alive then g1
  else
    let rate := g1.adjustedGrowthRate ctx
    let g2 : Grass :=
      { g1 with base := { g1.base with energy := min g1.base.max_energy (g1.base.energy + rate) } }
    let g3 : Grass := { g2 with base := g2.base.age_one_step }
    if g3.base.age ≥ g3.base.max_age then { g3 with base := g3.base.die ("Unknown") } else g3

/-- `Grass.can_reproduce`: the base gate plus the uniform draw below
`reproduction_chance` (`roll` models `random.random()`). -/
def Grass.canReproduce (g : Grass) (roll : ℝ) : Prop :=
  g.base.canReproduceBase ∧ roll < g.reproduction_chance

instance (g : Grass) (roll : ℝ) : Decidable (g.canReproduce roll) :=
  inferInstanceAs (Decidable (_ ∧ _))

/-- `Grass.reproduce`: gate, clamp the offset position to world bounds, bail
out (before charging any cost) when it lands on or outside the boundary,
otherwise charge the cost, reset the cooldown to 10 and emit the offspring.
`dx`/`dy` model the `random.uniform(-200, 200)` draws, `newOid` the identity of
the created object. -/
def Grass.reproduce (g : Grass) (ctx : Ctx) (roll dx dy : ℝ) (newOid : ℕ) :
    Grass × Option Grass :=
  if g.canReproduce roll then
    let new_x := max 0 (min ctx.world_width (g.base.position.x + dx))
    let new_y := max 0 (min ctx.world_height (g.base.position.y + dy))
    if new_x ≤ 0 ∨ new_x ≥ ctx.world_width ∨ new_y ≤ 0 ∨ new_y ≥ ctx.world_height then
      (g, none)
    else
      ({ g with base := { g.base with
            energy := g.base.energy - g.base.reproduction_energy_cost,
            reproduction_cooldown := 10 } },
       some (mkGrass newOid { x := new_x, y := new_y }))
  else (g, none)

/-- Loop body of `Animal.find_nearest_food`.  Food items are projected to
`(position, alive)`; the accumulator's `none` models the initial
`min_distance = float('inf')` (any finite distance beats it). -/
def findNearestFoodAux (self_pos : Position) (detection : ℝ) :
    List (Position × Bool) → Option (Position × ℝ) → Option (Position × ℝ)
  | [], acc => acc
  | f :: rest, acc =>
    if f.2 then
      let d := self_pos.distance_to f.1
      match acc with
      | none =>
        if d ≤ detection then findNearestFoodAux self_pos detection rest (some (f.1, d))
        else findNearestFoodAux self_pos detection rest none
      | some pr =>
        if d ≤ detection ∧ d < pr.2 then findNearestFoodAux self_pos detection rest (some (f.1, d))
        else findNearestFoodAux self_pos detection rest (some pr)
    else findNearestFoodAux self_pos detection rest acc

/-- `Animal.find_nearest_food` over one food list. -/
def findNearestFood (self_pos : Position) (detection : ℝ) (foods : List (Position × Bool)) :
    Option Position :=
  (findNearestFoodAux self_pos detection foods none).map Prod.fst

/-- `Animal.move_towards_target`: normalised step of length `speed`, clamped to
world bounds; no move when the distance is 0. -/
def moveTowards (pos target : Position) (speed world_width world_height : ℝ) : Position :=
  let dx := target.x - pos.x
  let dy := target.y - pos.y
  let d := Real.sqrt (dx ^ 2 + dy ^ 2)
  if d > 0 then
    { x := max 0 (min world_width (pos.x + dx / d * speed)),
      y := max 0 (min world_height (pos.y + dy / d * speed)) }
  else pos

/-- `Species.move_randomly`: one step of length `speed` in direction `θ`
(the `random.uniform(0, 2π)` draw), clamped to world bounds. -/
def moveRandomly (pos : Position) (θ speed world_width world_height : ℝ) : Position :=
  { x := max 0 (min world_width (pos.x + Real.cos θ * speed)),
    y := max 0 (min world_height (pos.y + Real.sin θ * speed)) }

/-- `Animal.intelligent_move` for a cow (`food_types = ['grass']`): during a
positive hunting cooldown decrement it and stay still, otherwise chase the
nearest alive grass in detection range, or wander randomly. -/
def Cow.intelligentMove (c : Cow) (ctx : Ctx) (θ : ℝ) : Cow :=
  if !c.base.alive then c
  else if c.anim.hunting_cooldown > 0 then
    { c with anim := { c.anim with hunting_cooldown := c.anim.hunting_cooldown - 1 } }
  else
    let foods := ctx.grass_list.map (fun x => (x.base.position, x.base.alive))
    match findNearestFood c.base.position c.anim.detection_range foods with
    | some target =>
      let p := moveTowards c.base.position target c.anim.movement_speed ctx.world_width ctx.world_height
      { c with base := { c.base with position := p } }
    | none =>
      let p := moveRandomly c.base.position θ c.anim.movement_speed ctx.world_width ctx.world_height
      { c with base := { c.base with position := p } }

/-- `Cow._eat_grass`: scan the grass list in order, consume the first alive
grass within `eating_range` (energy gain clamped to `max_energy`, grass dies
of "Predation by Cow"), stop after the first hit.  Returns the cow together
with the mutated grass list. -/
def Cow.eatGrass (c : Cow) : List Grass → Cow × List Grass
  | [] => (c, [])
  | g :: rest =>
    if g.base.alive = true ∧ c.base.position.distance_to g.base.position ≤ c.eating_range then
      ({ c with base := { c.base with
            energy := min c.base.max_energy (c.base.energy + g.base.energy) } },
       { g with base := g.base.die ("Predation by Cow") } :: rest)
    else
      let r := Cow.eatGrass c rest
      (r.1, g :: r.2)

/-- `Cow.update`: cooldown handling, no-op when dead, intelligent movement,
fixed energy consumption, eating, aging, starvation check.  Returns the cow
and the (possibly mutated) grass list of the context. -/
def Cow.update (c : Cow) (ctx : Ctx) (θ : ℝ) : Cow × List Grass :=
  let c1 : Cow := { c with base := c.base.updateBase }
  if !c1.base.alive then (c1, ctx.grass_list)
  else
    let c2 := c1.intelligentMove ctx θ
    let c3 : Cow :=
      { c2 with base := { c2.base with energy := c2.base.energy - c2.anim.energy_consumption } }
    let r := c3.eatGrass ctx.grass_list
    let c4 : Cow := { r.1 with base := (r.1).base.age_one_step }
    let c5 : Cow :=
      if c4.base.energy ≤ 0 then { c4 with base := c4.base.die ("Starvation") } else c4
    (c5, r.2)

/-- `Cow.can_reproduce`: base gate plus `age > 20`. -/
def Cow.canReproduce (c : Cow) : Prop :=
  c.base.canReproduceBase ∧ c.base.age > 20

instance (c : Cow) : Decidable c.canReproduce :=
  inferInstanceAs (Decidable (_ ∧ _))

/-- `Cow.reproduce`: charge the cost, reset the cooldown to 200, offspring at
the clamped offset position (`dx`/`dy` model `random.uniform(-10, 10)`). -/
def Cow.reproduce (c : Cow) (ctx : Ctx) (dx dy : ℝ) (newOid : ℕ) : Cow × Option Cow :=
  if c.canReproduce then
    let c1 : Cow := { c with base := { c.base with
        energy := c.base.energy - c.base.reproduction_energy_cost,
        reproduction_cooldown := 200 } }
    let new_x := max 0 (min ctx.world_width (c.base.position.x + dx))
    let new_y := max 0 (min ctx.world_height (c.base.position.y + dy))
    (c1, some (mkCow newOid { x := new_x, y := new_y }))
  else (c, none)

/-- `Animal.intelligent_move` for a tiger (`food_types = ['cow']`). -/
def Tiger.intelligentMove (t : Tiger) (ctx : Ctx) (θ : ℝ) : Tiger :=
  if !t.base.alive then t
  else if t.anim.hunting_cooldown > 0 then
    { t with anim := { t.anim with hunting_cooldown := t.anim.hunting_cooldown - 1 } }
  else
    let foods := ctx.cow_list.map (fun x => (x.base.position, x.base.alive))
    match findNearestFood t.base.position t.anim.detection_range foods with
    | some target =>
      let p := moveTowards t.base.position target t.anim.movement_speed ctx.world_width ctx.world_height
      { t with base := { t.base with position := p } }
    | none =>
      let p := moveRandomly t.base.position θ t.anim.movement_speed ctx.world_width ctx.world_height
      { t with base := { t.base with position := p } }

/-- `Tiger._hunt_cows`: scan the cow list in order; every alive cow within
`hunting_range` costs one `random.random()` draw (`rolls`); on a successful
roll gain its energy (clamped), kill it with "Predation by Tiger", start the
hunting cooldown and stop; on a failed roll keep scanning. -/
def Tiger.huntCows (t : Tiger) : List Cow → (ℕ → ℝ) → Tiger × List Cow
  | [], _ => (t, [])
  | c :: rest, rolls =>
    if c.base.alive = true ∧ t.base.position.distance_to c.base.position ≤ t.anim.hunting_range then
      if rolls 0 < t.anim.hunting_success_rate then
        ({ t with
            base := { t.base with
              energy := min t.base.max_energy (t.base.energy + c.base.energy) },
            anim := { t.anim with hunting_cooldown := t.anim.hunting_cooldown_duration } },
         { c with base := c.base.die ("Predation by Tiger") } :: rest)
      else
        let r := Tiger.huntCows t rest (fun n => rolls (n + 1))
        (r.1, c :: r.2)
    else
      let r := Tiger.huntCows t rest rolls
      (r.1, c :: r.2)

/-- `Tiger.update`: cooldown handling, then the dynamic
`hunting_success_rate` recomputation (which happens BEFORE the alive check),
then — when alive — movement, consumption, hunting, aging, starvation check.
Returns the tiger and the (possibly mutated) cow list. -/
def Tiger.update (t : Tiger) (ctx : Ctx) (θ : ℝ) (rolls : ℕ → ℝ) : Tiger × List Cow :=
  let t1 : Tiger := { t with base := t.base.updateBase }
  let t2 : Tiger := { t1 with anim := { t1.anim with hunting_success_rate :=
      if t1.base.energy ≤ t1.base.reproduction_energy_cost / 3 then
        1 / 5 + 3 / 5 * (1 - (t1.base.age : ℝ) / (t1.base.max_age : ℝ))
      else 1 / 5 } }
  if !t2.base.alive then (t2, ctx.cow_list)
  else
    let t3 := t2.intelligentMove ctx θ
    let t4 : Tiger :=
      { t3 with base := { t3.base with energy := t3.base.energy - t3.anim.energy_consumption } }
    let r := t4.huntCows ctx.cow_list rolls
    let t5 : Tiger := { r.1 with base := (r.1).base.age_one_step }
    let t6 : Tiger :=
      if t5.base.energy ≤ 0 then { t5 with base := t5.base.die ("Starvation") } else t5
    (t6, r.2)

/-- `Tiger.can_reproduce`: base gate plus `age > 30`. -/
def Tiger.canReproduce (t : Tiger) : Prop :=
  t.base.canReproduceBase ∧ t.base.age > 30

instance (t : Tiger) : Decidable t.canReproduce :=
  inferInstanceAs (Decidable (_ ∧ _))

/-- `Tiger.reproduce`: charge the cost, reset the cooldown to 800, offspring
at the clamped offset position (`dx`/`dy` model `random.uniform(-40, 40)`). -/
def Tiger.reproduce (t : Tiger) (ctx : Ctx) (dx dy : ℝ) (newOid : ℕ) : Tiger × Option Tiger :=
  if t.canReproduce then
    let t1 : Tiger := { t with base := { t.base with
        energy := t.base.energy - t.base.reproduction_energy_cost,
        reproduction_cooldown := 800 } }
    let new_x := max 0 (min ctx.world_width (t.base.position.x + dx))
    let new_y := max 0 (min ctx.world_height (t.base.position.y + dy))
    (t1, some (mkTiger newOid { x := new_x, y := new_y }))
  else (t, none)

/-- Constant zero draw stream (used to close counterexamples over the
universally quantified random draws). -/
def zeroDraws : ℕ → ℝ := fun _ => 0

/-- Constructor-fixed constants of a `Grass` object (everything
`Grass.__init__` writes besides position, identity and the mutable state). -/
def Grass.WF (g : Grass) : Prop :=
  g.base.max_energy = 160 ∧ g.base.max_age = 2000 ∧ g.base.reproduction_energy_cost = 40 ∧
  g.base_growth_rate = 9 / 10 ∧ g.reproduction_chance = 2 / 5 ∧
  g.competition_radius = 30 ∧ g.max_competition_effect = 9 / 10

/-- Constructor-fixed constants of a `Cow` object. -/
def Cow.WF (c : Cow) : Prop :=
  c.base.max_energy = 1600 ∧ c.base.max_age = 4000 ∧ c.base.reproduction_energy_cost = 400 ∧
  c.anim.movement_speed = 3 ∧ c.anim.energy_consumption = 2 ∧ c.anim.hunting_range = 5 ∧
  c.anim.detection_range = 800 ∧ c.anim.hunting_cooldown_duration = 0 ∧ c.eating_range = 5

/-- Constructor-fixed constants of a `Tiger` object (`hunting_success_rate` is
mutable and deliberately not listed). -/
def Tiger.WF (t : Tiger) : Prop :=
  t.base.max_energy = 16000 ∧ t.base.max_age = 8000 ∧ t.base.reproduction_energy_cost = 4000 ∧
  t.anim.movement_speed = 4 ∧ t.anim.energy_consumption = 20 ∧ t.anim.hunting_range = 6 ∧
  t.anim.detection_range = 1000 ∧ t.anim.hunting_cooldown_duration = 4

/-- The energy invariant of the spec: while alive, `0 ≤ energy ≤ max_energy`. -/
def SpeciesBase.EnergyInv (s : SpeciesBase) : Prop :=
  s.alive = true → 0 ≤ s.energy ∧ s.energy ≤ s.max_energy

/-- The death-bookkeeping invariant of the spec: `death_reason` is set iff
the entity is dead. -/
def SpeciesBase.DeathInv (s : SpeciesBase) : Prop :=
  s.death_reason ≠ none ↔ s.alive = false

/-- The tick context `EcosystemState.get_ecosystem_state` builds for a state
whose registry holds grass list `gl`, cow list `cl` and tiger list `tl`:
the precomputed position array and parallel object handles cover exactly the
alive grass, in list order. -/
def buildCtx (world_width world_height : ℝ) (gl : List Grass) (cl : List Cow)
    (tl : List Tiger) : Ctx :=
  let aliveGrass := gl.filter (fun x => x.base.alive)
  { world_width := world_width
    world_height := world_height
    grass_list := gl
    cow_list := cl
    tiger_list := tl
    grassPositionsArr := some (aliveGrass.map (fun x => x.base.position))
    aliveGrassObjs := aliveGrass }

/-- Scenario B (one producer, one herbivore): the update phase of one
orchestrator tick.  The context is built once before the phase; the grass
updates first; the cow then updates against the live (already mutated) grass
list, while the position array stays the pre-tick snapshot.  Returns the two
focal objects after the update phase. -/
def scenBUpd (g : Grass) (c : Cow) (world_width world_height θ : ℝ) : Grass × Cow :=
  let ctx1 := buildCtx world_width world_height [g] [c] []
  let g1 := Grass.update g ctx1
  let r := Cow.update c { ctx1 with grass_list := [g1] } θ
  ((r.2).headD g1, r.1)

/-- Scenario B: a full orchestrator tick on the two focal objects
(update phase, then the reproduction phase against a freshly rebuilt context;
the cleanup phase only drops dead objects from the registry and mutates no
object).  `roll1` is the draw of the orchestrator's outer `can_reproduce()`
check for the grass, `roll2` the draw of the one inside `reproduce()`. -/
def scenBTick (g : Grass) (c : Cow) (world_width world_height θ roll1 roll2 gdx gdy
    cdx cdy : ℝ) : Grass × Cow :=
  let r1 := scenBUpd g c world_width world_height θ
  let g2 := r1.1
  let c2 := r1.2
  let ctx2 := buildCtx world_width world_height [g2] [c2] []
  let g3 := if g2.canReproduce roll1 then (g2.reproduce ctx2 roll2 gdx gdy 2).1 else g2
  let c3 := if c2.canReproduce then (c2.reproduce ctx2 cdx cdy 3).1 else c2
  (g3, c3)

/-- Scenario A context: a world with no producers and no herbivores. -/
def loneTigerCtx (world_width world_height : ℝ) : Ctx :=
  buildCtx world_width world_height [] [] []

/-- One orchestrator tick projected onto a lone tiger in an otherwise empty
world: the update phase is exactly `Tiger.update` (nothing to hunt), the
reproduction phase charges the parent when `can_reproduce()` holds (the
offspring interacts with nothing and is dropped from the projection), and
cleanup mutates no object. -/
def tigerStep (t : Tiger) (world_width world_height θ : ℝ) : Tiger :=
  let u := (Tiger.update t (loneTigerCtx world_width world_height) θ zeroDraws).1
  if u.canReproduce then (u.reproduce (loneTigerCtx world_width world_height) 0 0 1).1 else u

/-- The lone tiger's trajectory: state after `k` orchestrator ticks,
`θs` being the stream of random movement angles. -/
def tigerRun (t : Tiger) (world_width world_height : ℝ) (θs : ℕ → ℝ) : ℕ → Tiger
  | 0 => t
  | k + 1 => tigerStep (tigerRun t world_width world_height θs k) world_width world_height (θs k)

/-- The predicate `Cow._eat_grass` tests on each grass of the list. -/
def Cow.eatTarget (c : Cow) (g : Grass) : Prop :=
  g.base.alive = true ∧ c.base.position.distance_to g.base.position ≤ c.eating_range

/-! Concrete sample states used to instantiate theorems with hypotheses. -/

/-- An empty tick context without the precomputed position array. -/
def sampleCtx : Ctx := ⟨800, 600, [], [], [], none, []⟩

/-- A freshly constructed grass in the middle of the default world. -/
def sampleGrass : Grass := mkGrass 0 ⟨400, 300⟩

/-- A grass whose energy has grown to 100 (enough to reproduce). -/
def richGrass : Grass :=
  { sampleGrass with base := { sampleGrass.base with energy := 100 } }

/-- A tiger that has died of starvation at age 100. -/
def deadTiger : Tiger :=
  { mkTiger 0 ⟨0, 0⟩ with base := { (mkTiger 0 ⟨0, 0⟩).base with
      alive := false, energy := 0, age := 100, death_reason := some ("Starvation") } }

/-- A dead grass (eaten by a cow). -/
def deadGrass : Grass :=
  { mkGrass 0 ⟨0, 0⟩ with base := { (mkGrass 0 ⟨0, 0⟩).base with
      alive := false, death_reason := some ("Predation by Cow") } }

/-- A freshly constructed tiger whose starting energy has been raised to 8700,
which keeps it above the `2 × reproduction_energy_cost = 8000` gate when its
age crosses 30. -/
def fatTiger : Tiger :=
  { mkTiger 0 ⟨50, 50⟩ with base := { (mkTiger 0 ⟨50, 50⟩).base with energy := 8700 } }

/-- Two overlapping fresh grasses for the density-path comparison. -/
def densG0 : Grass := mkGrass 0 ⟨0, 0⟩

/-- Companion grass of densG0 at the same spot. -/
def densG1 : Grass := mkGrass 1 ⟨0, 0⟩

/-- A context carrying both grasses with the precomputed position array
present, so that either density path can be evaluated on the same data. -/
def densCtxOpt : Ctx :=
  { world_width := 800
    world_height := 600
    grass_list := [densG0, densG1]
    cow_list := []
    tiger_list := []
    grassPositionsArr := some [⟨0, 0⟩, ⟨0, 0⟩]
    aliveGrassObjs := [densG0, densG1] }

/-! ### Basic lemmas about the base-class operations -/

theorem SpeciesBase.die_alive (s : SpeciesBase) (r : String) : (s.die r).alive = false := by
  unfold SpeciesBase.die; split_ifs with h <;> simp_all

theorem SpeciesBase.die_shape (s : SpeciesBase) (r : String) :
    s.die r = { s with alive := false, death_reason := some r } ∨ s.die r = s := by
  unfold SpeciesBase.die; split_ifs <;> simp

theorem SpeciesBase.die_of_dead (s : SpeciesBase) (r : String) (h : s.alive = false) :
    s.die r = s := by
  unfold SpeciesBase.die; simp [h]

theorem SpeciesBase.updateBase_of_dead (s : SpeciesBase) (h : s.alive = false) :
    s.updateBase = s := by
  unfold SpeciesBase.updateBase; simp [h]

theorem SpeciesBase.updateBase_of_alive (s : SpeciesBase) (h : s.alive = true) :
    s.updateBase = { s with reproduction_cooldown := s.reproduction_cooldown - 1 } := by
  unfold SpeciesBase.updateBase
  rcases Nat.eq_zero_or_pos s.reproduction_cooldown with h0 | h0
  · cases s
    simp_all
  · simp [h, h0, Nat.not_eq_zero_of_lt h0]

theorem SpeciesBase.age_one_step_shape (s : SpeciesBase) :
    s.age_one_step =
      if s.age + 1 ≥ s.max_age then
        ({ s with age := s.age + 1 } : SpeciesBase).die ("Old age")
      else { s with age := s.age + 1 } := rfl

/-! ### Shape lemmas: what each composite operation can do to its subject -/

theorem Cow.intelligentMove_shape (c : Cow) (ctx : Ctx) (θ : ℝ) :
    ∃ p hcd, c.intelligentMove ctx θ =
      { c with base := { c.base with position := p },
               anim := { c.anim with hunting_cooldown := hcd } } := by
  simp only [Cow.intelligentMove]
  split_ifs with h1 h2
  · exact ⟨c.base.position, c.anim.hunting_cooldown, rfl⟩
  · exact ⟨c.base.position, c.anim.hunting_cooldown - 1, rfl⟩
  · split
    · exact ⟨_, c.anim.hunting_cooldown, rfl⟩
    · exact ⟨_, c.anim.hunting_cooldown, rfl⟩

theorem Tiger.intelligentMove_shape_tiger (t : Tiger) (ctx : Ctx) (θ : ℝ) :
    ∃ p hcd, t.intelligentMove ctx θ =
      { t with base := { t.base with position := p },
               anim := { t.anim with hunting_cooldown := hcd } } := by
  simp only [Tiger.intelligentMove]
  split_ifs with h1 h2
  · exact ⟨t.base.position, t.anim.hunting_cooldown, rfl⟩
  · exact ⟨t.base.position, t.anim.hunting_cooldown - 1, rfl⟩
  · split
    · exact ⟨_, t.anim.hunting_cooldown, rfl⟩
    · exact ⟨_, t.anim.hunting_cooldown, rfl⟩

theorem Cow.eatGrass_fst_shape (c : Cow) (gl : List Grass) :
    (Cow.eatGrass c gl).1 = c ∨
    ∃ x, (Cow.eatGrass c gl).1 =
      { c with base := { c.base with energy := min c.base.max_energy (c.base.energy + x) } } := by
  induction gl with
  | nil => exact Or.inl rfl
  | cons g rest ih =>
    simp only [Cow.eatGrass]
    split_ifs with h
    · exact Or.inr ⟨g.base.energy, rfl⟩
    · simpa using ih

theorem Cow.eatGrass_snd_mem (c : Cow) (gl : List Grass) :
    ∀ x ∈ (Cow.eatGrass c gl).2, x ∈ gl ∨
      ∃ g ∈ gl, x = { g with base := g.base.die ("Predation by Cow") } := by
  induction gl with
  | nil => simp [Cow.eatGrass]
  | cons g rest ih =>
    simp only [Cow.eatGrass]
    split_ifs with h
    · intro x hx
      rcases List.mem_cons.mp hx with h1 | h1
      · exact Or.inr ⟨g, List.mem_cons_self g rest, h1⟩
      · exact Or.inl (List.mem_cons_of_mem _ h1)
    · intro x hx
      rcases List.mem_cons.mp hx with h1 | h1
      · exact Or.inl (h1 ▸ List.mem_cons_self g rest)
      · rcases ih x h1 with h2 | ⟨g2, hg2, he⟩
        · exact Or.inl (List.mem_cons_of_mem _ h2)
        · exact Or.inr ⟨g2, List.mem_cons_of_mem _ hg2, he⟩

theorem Tiger.huntCows_fst_shape (t : Tiger) (cl : List Cow) (rolls : ℕ → ℝ) :
    (Tiger.huntCows t cl rolls).1 = t ∨
    ∃ x, (Tiger.huntCows t cl rolls).1 =
      { t with base := { t.base with energy := min t.base.max_energy (t.base.energy + x) },
               anim := { t.anim with hunting_cooldown := t.anim.hunting_cooldown_duration } } := by
  induction cl generalizing rolls with
  | nil => exact Or.inl rfl
  | cons c rest ih =>
    simp only [Tiger.huntCows]
    split_ifs with h1 h2
    · exact Or.inr ⟨c.base.energy, rfl⟩
    · simpa using ih (fun n => rolls (n + 1))
    · simpa using ih rolls

theorem Tiger.huntCows_snd_mem (t : Tiger) (cl : List Cow) (rolls : ℕ → ℝ) :
    ∀ x ∈ (Tiger.huntCows t cl rolls).2, x ∈ cl ∨
      ∃ c ∈ cl, x = { c with base := c.base.die ("Predation by Tiger") } := by
  induction cl generalizing rolls with
  | nil => simp [Tiger.huntCows]
  | cons c rest ih =>
    simp only [Tiger.huntCows]
    split_ifs with h1 h2
    · intro x hx
      rcases List.mem_cons.mp hx with h1 | h1
      · exact Or.inr ⟨c, List.mem_cons_self c rest, h1⟩
      · exact Or.inl (List.mem_cons_of_mem _ h1)
    · intro x hx
      rcases List.mem_cons.mp hx with h3 | h3
      · exact Or.inl (h3 ▸ List.mem_cons_self c rest)
      · rcases ih (fun n => rolls (n + 1)) x h3 with h4 | ⟨c2, hc2, he⟩
        · exact Or.inl (List.mem_cons_of_mem _ h4)
        · exact Or.inr ⟨c2, List.mem_cons_of_mem _ hc2, he⟩
    · intro x hx
      rcases List.mem_cons.mp hx with h3 | h3
      · exact Or.inl (h3 ▸ List.mem_cons_self c rest)
      · rcases ih rolls x h3 with h4 | ⟨c2, hc2, he⟩
        · exact Or.inl (List.mem_cons_of_mem _ h4)
        · exact Or.inr ⟨c2, List.mem_cons_of_mem _ hc2, he⟩

/-! ### Preservation of the death-bookkeeping invariant -/

theorem SpeciesBase.mk_DeathInv (oid : ℕ) (pos : Position) (e : ℝ) (ma : ℕ) (cost : ℝ) :
    (mkSpeciesBase oid pos e ma cost).DeathInv := by
  simp [SpeciesBase.DeathInv, mkSpeciesBase]

theorem SpeciesBase.die_DeathInv (s : SpeciesBase) (r : String) (h : s.DeathInv) :
    (s.die r).DeathInv := by
  rcases SpeciesBase.die_shape s r with h1 | h1 <;> rw [h1]
  · simp [SpeciesBase.DeathInv]
  · exact h

theorem SpeciesBase.updateBase_DeathInv (s : SpeciesBase) (h : s.DeathInv) :
    s.updateBase.DeathInv := by
  unfold SpeciesBase.updateBase
  split_ifs <;> exact h

theorem SpeciesBase.age_one_step_DeathInv (s : SpeciesBase) (h : s.DeathInv) :
    s.age_one_step.DeathInv := by
  rw [SpeciesBase.age_one_step_shape]
  split_ifs
  · exact SpeciesBase.die_DeathInv _ _ h
  · exact h

theorem Grass.update_DeathInv (g : Grass) (ctx : Ctx) (h : g.base.DeathInv) :
    (Grass.update g ctx).base.DeathInv := by
  simp only [Grass.update]
  split_ifs
  · exact SpeciesBase.updateBase_DeathInv _ h
  · exact SpeciesBase.die_DeathInv _ _
      (SpeciesBase.age_one_step_DeathInv _ (SpeciesBase.updateBase_DeathInv _ h))
  · exact SpeciesBase.age_one_step_DeathInv _ (SpeciesBase.updateBase_DeathInv _ h)

theorem Cow.eatGrass_fst_DeathInv (c : Cow) (gl : List Grass) (h : c.base.DeathInv) :
    ((Cow.eatGrass c gl).1).base.DeathInv := by
  rcases Cow.eatGrass_fst_shape c gl with h1 | ⟨x, h1⟩ <;> rw [h1] <;> exact h

theorem Cow.intelligentMove_DeathInv (c : Cow) (ctx : Ctx) (θ : ℝ) (h : c.base.DeathInv) :
    ((c.intelligentMove ctx θ)).base.DeathInv := by
  obtain ⟨p, hcd, h1⟩ := Cow.intelligentMove_shape c ctx θ
  rw [h1]; exact h

theorem Cow.update_DeathInv_cow (c : Cow) (ctx : Ctx) (θ : ℝ) (h : c.base.DeathInv) :
    ((Cow.update c ctx θ).1).base.DeathInv := by
  simp only [Cow.update]
  split_ifs
  · exact SpeciesBase.updateBase_DeathInv _ h
  · exact SpeciesBase.die_DeathInv _ _ (SpeciesBase.age_one_step_DeathInv _
      (Cow.eatGrass_fst_DeathInv _ _
        (Cow.intelligentMove_DeathInv _ ctx θ (SpeciesBase.updateBase_DeathInv _ h))))
  · exact SpeciesBase.age_one_step_DeathInv _ (Cow.eatGrass_fst_DeathInv _ _
      (Cow.intelligentMove_DeathInv _ ctx θ (SpeciesBase.updateBase_DeathInv _ h)))

theorem Cow.update_grass_DeathInv (c : Cow) (ctx : Ctx) (θ : ℝ)
    (hg : ∀ x ∈ ctx.grass_list, x.base.DeathInv) :
    ∀ x ∈ (Cow.update c ctx θ).2, x.base.DeathInv := by
  simp only [Cow.update]
  split_ifs
  · exact hg
  all_goals
    intro x hx
    rcases Cow.eatGrass_snd_mem _ _ x hx with h3 | ⟨g2, hg2, he⟩
    · exact hg x h3
    · rw [he]
      exact SpeciesBase.die_DeathInv _ _ (hg g2 hg2)

theorem Tiger.huntCows_fst_DeathInv (t : Tiger) (cl : List Cow) (rolls : ℕ → ℝ)
    (h : t.base.DeathInv) : ((Tiger.huntCows t cl rolls).1).base.DeathInv := by
  rcases Tiger.huntCows_fst_shape t cl rolls with h1 | ⟨x, h1⟩ <;> rw [h1] <;> exact h

theorem Tiger.intelligentMove_DeathInv_tiger (t : Tiger) (ctx : Ctx) (θ : ℝ) (h : t.base.DeathInv) :
    ((t.intelligentMove ctx θ)).base.DeathInv := by
  obtain ⟨p, hcd, h1⟩ := Tiger.intelligentMove_shape_tiger t ctx θ
  rw [h1]; exact h

theorem Tiger.update_DeathInv_tiger (t : Tiger) (ctx : Ctx) (θ : ℝ) (rolls : ℕ → ℝ)
    (h : t.base.DeathInv) : ((Tiger.update t ctx θ rolls).1).base.DeathInv := by
  simp only [Tiger.update]
  split_ifs
  all_goals first
    | exact SpeciesBase.updateBase_DeathInv _ h
    | (refine SpeciesBase.die_DeathInv _ _ (SpeciesBase.age_one_step_DeathInv _
        (Tiger.huntCows_fst_DeathInv _ _ _ (Tiger.intelligentMove_DeathInv_tiger _ ctx θ ?_)))
       exact SpeciesBase.updateBase_DeathInv _ h)
    | (refine SpeciesBase.age_one_step_DeathInv _
        (Tiger.huntCows_fst_DeathInv _ _ _ (Tiger.intelligentMove_DeathInv_tiger _ ctx θ ?_))
       exact SpeciesBase.updateBase_DeathInv _ h)

theorem Tiger.update_cow_DeathInv (t : Tiger) (ctx : Ctx) (θ : ℝ) (rolls : ℕ → ℝ)
    (hc : ∀ x ∈ ctx.cow_list, x.base.DeathInv) :
    ∀ x ∈ (Tiger.update t ctx θ rolls).2, x.base.DeathInv := by
  simp only [Tiger.update]
  split_ifs
  all_goals first
    | exact hc
    | (intro x hx
       rcases Tiger.huntCows_snd_mem _ _ _ x hx with h3 | ⟨c2, hc2, he⟩
       · exact hc x h3
       · rw [he]
         exact SpeciesBase.die_DeathInv _ _ (hc c2 hc2))

theorem Grass.reproduce_DeathInv (g : Grass) (ctx : Ctx) (roll dx dy : ℝ) (noid : ℕ)
    (h : g.base.DeathInv) :
    ((Grass.reproduce g ctx roll dx dy noid).1).base.DeathInv ∧
    ∀ off, (Grass.reproduce g ctx roll dx dy noid).2 = some off → off.base.DeathInv := by
  simp only [Grass.reproduce]
  split_ifs
  · exact ⟨h, by simp⟩
  · refine ⟨h, ?_⟩
    intro off hoff
    simp only [Option.some.injEq] at hoff
    rw [← hoff]
    exact SpeciesBase.mk_DeathInv _ _ _ _ _
  · exact ⟨h, by simp⟩

theorem Cow.reproduce_DeathInv_cow (c : Cow) (ctx : Ctx) (dx dy : ℝ) (noid : ℕ)
    (h : c.base.DeathInv) :
    ((Cow.reproduce c ctx dx dy noid).1).base.DeathInv ∧
    ∀ off, (Cow.reproduce c ctx dx dy noid).2 = some off → off.base.DeathInv := by
  simp only [Cow.reproduce]
  split_ifs
  · refine ⟨h, ?_⟩
    intro off hoff
    simp only [Option.some.injEq] at hoff
    rw [← hoff]
    exact SpeciesBase.mk_DeathInv _ _ _ _ _
  · exact ⟨h, by simp⟩

theorem Tiger.reproduce_DeathInv_tiger (t : Tiger) (ctx : Ctx) (dx dy : ℝ) (noid : ℕ)
    (h : t.base.DeathInv) :
    ((Tiger.reproduce t ctx dx dy noid).1).base.DeathInv ∧
    ∀ off, (Tiger.reproduce t ctx dx dy noid).2 = some off → off.base.DeathInv := by
  simp only [Tiger.reproduce]
  split_ifs
  · refine ⟨h, ?_⟩
    intro off hoff
    simp only [Option.some.injEq] at hoff
    rw [← hoff]
    exact SpeciesBase.mk_DeathInv _ _ _ _ _
  · exact ⟨h, by simp⟩

/-- C8: for every entity, `death_reason` is non-None iff `alive = false` —
the invariant holds at construction and is preserved by `die`, by the base
operations, by every species' `update` (including the entities mutated through
predation) and by every `reproduce` (parent and offspring); and calling `die`
on an already-dead entity changes nothing at all (first recorded cause wins,
permanently). -/
theorem C8_death_bookkeeping :
    (∀ oid pos e ma cost, (mkSpeciesBase oid pos e ma cost).DeathInv) ∧
    (∀ (s : SpeciesBase) (r : String), s.DeathInv → (s.die r).DeathInv) ∧
    (∀ s : SpeciesBase, s.DeathInv → s.updateBase.DeathInv) ∧
    (∀ s : SpeciesBase, s.DeathInv → s.age_one_step.DeathInv) ∧
    (∀ g ctx, g.base.DeathInv → (Grass.update g ctx).base.DeathInv) ∧
    (∀ c ctx θ, c.base.DeathInv → ((Cow.update c ctx θ).1).base.DeathInv) ∧
    (∀ c ctx θ, (∀ x ∈ ctx.grass_list, x.base.DeathInv) →
      ∀ x ∈ (Cow.update c ctx θ).2, x.base.DeathInv) ∧
    (∀ t ctx θ rolls, t.base.DeathInv → ((Tiger.update t ctx θ rolls).1).base.DeathInv) ∧
    (∀ t ctx θ rolls, (∀ x ∈ ctx.cow_list, x.base.DeathInv) →
      ∀ x ∈ (Tiger.update t ctx θ rolls).2, x.base.DeathInv) ∧
    (∀ g ctx roll dx dy noid, g.base.DeathInv →
      ((Grass.reproduce g ctx roll dx dy noid).1).base.DeathInv ∧
      ∀ off, (Grass.reproduce g ctx roll dx dy noid).2 = some off → off.base.DeathInv) ∧
    (∀ c ctx dx dy noid, c.base.DeathInv →
      ((Cow.reproduce c ctx dx dy noid).1).base.DeathInv ∧
      ∀ off, (Cow.reproduce c ctx dx dy noid).2 = some off → off.base.DeathInv) ∧
    (∀ t ctx dx dy noid, t.base.DeathInv →
      ((Tiger.reproduce t ctx dx dy noid).1).base.DeathInv ∧
      ∀ off, (Tiger.reproduce t ctx dx dy noid).2 = some off → off.base.DeathInv) ∧
    (∀ (s : SpeciesBase) (r : String), s.alive = false → s.die r = s) := by
  refine ⟨SpeciesBase.mk_DeathInv, SpeciesBase.die_DeathInv, SpeciesBase.updateBase_DeathInv,
    SpeciesBase.age_one_step_DeathInv, Grass.update_DeathInv, Cow.update_DeathInv_cow,
    Cow.update_grass_DeathInv, Tiger.update_DeathInv_tiger, Tiger.update_cow_DeathInv,
    Grass.reproduce_DeathInv, Cow.reproduce_DeathInv_cow, Tiger.reproduce_DeathInv_tiger,
    SpeciesBase.die_of_dead⟩

/-- Witness for C8 at a concrete entity: a freshly constructed base entity
satisfies the invariant, still satisfies it after dying of starvation, and a
second `die` with a different reason does not change it. -/
theorem C8_death_bookkeeping_witness :
    ((mkSpeciesBase 0 ⟨0, 0⟩ 40 2000 40).die ("Starvation")).DeathInv ∧
    ((mkSpeciesBase 0 ⟨0, 0⟩ 40 2000 40).die ("Starvation")).die ("Old age") =
      (mkSpeciesBase 0 ⟨0, 0⟩ 40 2000 40).die ("Starvation") := by
  constructor
  · exact C8_death_bookkeeping.2.1 _ _ (by simp [SpeciesBase.DeathInv, mkSpeciesBase])
  · exact C8_death_bookkeeping.2.2.2.2.2.2.2.2.2.2.2.2 _ _
      (by simp [SpeciesBase.die, mkSpeciesBase])

/-- C10: every constructed entity starts with `energy` equal to its
`reproduction_energy_cost` (not the nominal energy parameter), `max_energy`
equal to four times the energy parameter, age 0, alive, zero reproduction
cooldown and no death reason; in particular a new producer starts at energy 40
with `max_energy` 160. -/
theorem C10_initial_state :
    (∀ oid pos (e : ℝ) (ma : ℕ) (cost : ℝ),
      (mkSpeciesBase oid pos e ma cost).energy = cost ∧
      (mkSpeciesBase oid pos e ma cost).max_energy = e * 4 ∧
      (mkSpeciesBase oid pos e ma cost).age = 0 ∧
      (mkSpeciesBase oid pos e ma cost).alive = true ∧
      (mkSpeciesBase oid pos e ma cost).reproduction_cooldown = 0 ∧
      (mkSpeciesBase oid pos e ma cost).death_reason = none) ∧
    (∀ oid pos, (mkGrass oid pos).base.energy = 40 ∧ (mkGrass oid pos).base.max_energy = 160) ∧
    (∀ oid pos, (mkCow oid pos).base.energy = 400 ∧ (mkCow oid pos).base.max_energy = 1600) ∧
    (∀ oid pos, (mkTiger oid pos).base.energy = 4000 ∧
      (mkTiger oid pos).base.max_energy = 16000) := by
  refine ⟨fun _ _ _ _ _ => ⟨rfl, rfl, rfl, rfl, rfl, rfl⟩, fun _ _ => ⟨rfl, ?_⟩,
    fun _ _ => ⟨rfl, ?_⟩, fun _ _ => ⟨rfl, ?_⟩⟩ <;>
    norm_num [mkGrass, mkCow, mkTiger, mkSpeciesBase]

/-- C7: a producer's competition-adjusted growth rate is always at least
`0.01 × base_growth_rate`, and exactly `2 × base_growth_rate` when the local
density is 0 (for actual producers the base rate is the nonnegative constant
0.9). -/
theorem C7_growth_floor :
    (∀ (g : Grass) (ctx : Ctx), g.base_growth_rate * (1 / 100) ≤ g.adjustedGrowthRate ctx) ∧
    (∀ (g : Grass) (ctx : Ctx), g.calcDensity ctx = 0 → 0 ≤ g.base_growth_rate →
      g.adjustedGrowthRate ctx = 2 * g.base_growth_rate) := by
  constructor
  · intro g ctx
    simp only [Grass.adjustedGrowthRate]
    exact le_max_left _ _
  · intro g ctx hd hb
    simp only [Grass.adjustedGrowthRate, hd, if_pos]
    rw [max_eq_right (by linarith)]
    ring

/-- Witness for C7: a lone grass in an empty context (no precomputed array,
empty grass list) has density 0 and adjusted growth rate exactly twice its
base rate. -/
theorem C7_growth_floor_witness :
    sampleGrass.calcDensity sampleCtx = 0 ∧
    sampleGrass.adjustedGrowthRate sampleCtx = 2 * sampleGrass.base_growth_rate := by
  have hd : sampleGrass.calcDensity sampleCtx = 0 := by
    simp [Grass.calcDensity, Grass.calcDensityFallback, sampleCtx]
  exact ⟨hd, C7_growth_floor.2 _ _ hd (by norm_num [sampleGrass, mkGrass])⟩

/-- C5: a producer's `reproduce` whose clamped offspring position lands
exactly on or outside a world boundary returns no offspring and leaves the
parent entirely unchanged (the early return precedes the cost charge). -/
theorem C5_boundary_no_offspring (g : Grass) (ctx : Ctx) (roll dx dy : ℝ) (noid : ℕ)
    (hb : max 0 (min ctx.world_width (g.base.position.x + dx)) ≤ 0 ∨
      max 0 (min ctx.world_width (g.base.position.x + dx)) ≥ ctx.world_width ∨
      max 0 (min ctx.world_height (g.base.position.y + dy)) ≤ 0 ∨
      max 0 (min ctx.world_height (g.base.position.y + dy)) ≥ ctx.world_height) :
    Grass.reproduce g ctx roll dx dy noid = (g, none) := by
  simp only [Grass.reproduce]
  split_ifs with h1 <;> rfl

/-- Witness for C5: an eligible grass at x = 400 drawing a -900 x offset
(clamped to the boundary x = 0) produces nothing and stays unchanged. -/
theorem C5_boundary_no_offspring_witness :
    Grass.reproduce richGrass sampleCtx 0 (-900) 0 5 = (richGrass, none) := by
  refine C5_boundary_no_offspring richGrass sampleCtx 0 (-900) 0 5 (Or.inl ?_)
  norm_num [richGrass, sampleGrass, mkGrass, mkSpeciesBase, sampleCtx]

/-- C4: an entity that returns an offspring from `reproduce` necessarily had
`reproduction_cooldown = 0`, pays exactly `reproduction_energy_cost` and has
its cooldown reset to the species constant (producer 10, herbivore 200,
carnivore 800). -/
theorem C4_reproduction_gating :
    (∀ g ctx roll dx dy noid off, (Grass.reproduce g ctx roll dx dy noid).2 = some off →
      g.base.reproduction_cooldown = 0 ∧
      ((Grass.reproduce g ctx roll dx dy noid).1).base.energy
        = g.base.energy - g.base.reproduction_energy_cost ∧
      ((Grass.reproduce g ctx roll dx dy noid).1).base.reproduction_cooldown = 10) ∧
    (∀ c ctx dx dy noid off, (Cow.reproduce c ctx dx dy noid).2 = some off →
      c.base.reproduction_cooldown = 0 ∧
      ((Cow.reproduce c ctx dx dy noid).1).base.energy
        = c.base.energy - c.base.reproduction_energy_cost ∧
      ((Cow.reproduce c ctx dx dy noid).1).base.reproduction_cooldown = 200) ∧
    (∀ t ctx dx dy noid off, (Tiger.reproduce t ctx dx dy noid).2 = some off →
      t.base.reproduction_cooldown = 0 ∧
      ((Tiger.reproduce t ctx dx dy noid).1).base.energy
        = t.base.energy - t.base.reproduction_energy_cost ∧
      ((Tiger.reproduce t ctx dx dy noid).1).base.reproduction_cooldown = 800) := by
  refine ⟨?_, ?_, ?_⟩
  · intro g ctx roll dx dy noid off h
    simp only [Grass.reproduce] at h ⊢
    split_ifs at h ⊢ with h1 h2
    all_goals first
      | exact ⟨Nat.le_zero.mp h1.1.2.2, rfl, rfl⟩
      | exact absurd h (by simp)
  · intro c ctx dx dy noid off h
    simp only [Cow.reproduce] at h ⊢
    split_ifs at h ⊢ with h1
    all_goals first
      | exact ⟨Nat.le_zero.mp h1.1.2.2, rfl, rfl⟩
      | exact absurd h (by simp)
  · intro t ctx dx dy noid off h
    simp only [Tiger.reproduce] at h ⊢
    split_ifs at h ⊢ with h1
    all_goals first
      | exact ⟨Nat.le_zero.mp h1.1.2.2, rfl, rfl⟩
      | exact absurd h (by simp)

/-- Witness for C4: a grass with energy 100 at the world center, drawing roll
0 and zero offsets, reproduces; the parent pays 40 energy and its cooldown
becomes 10. -/
theorem C4_reproduction_gating_witness :
    richGrass.base.reproduction_cooldown = 0 ∧
    ((Grass.reproduce richGrass sampleCtx 0 0 0 7).1).base.energy
      = richGrass.base.energy - richGrass.base.reproduction_energy_cost ∧
    ((Grass.reproduce richGrass sampleCtx 0 0 0 7).1).base.reproduction_cooldown = 10 := by
  refine C4_reproduction_gating.1 richGrass sampleCtx 0 0 0 7 (mkGrass 7 ⟨400, 300⟩) ?_
  have hcan : richGrass.canReproduce 0 := by
    refine ⟨⟨rfl, ?_, ?_⟩, ?_⟩ <;>
      norm_num [richGrass, sampleGrass, mkGrass, mkSpeciesBase]
  simp only [Grass.reproduce, if_pos hcan]
  have hx : max 0 (min sampleCtx.world_width (richGrass.base.position.x + 0)) = 400 := by
    norm_num [richGrass, sampleGrass, mkGrass, mkSpeciesBase, sampleCtx]
  have hy : max 0 (min sampleCtx.world_height (richGrass.base.position.y + 0)) = 300 := by
    norm_num [richGrass, sampleGrass, mkGrass, mkSpeciesBase, sampleCtx]
  rw [hx, hy]
  rw [if_neg (by norm_num [sampleCtx])]

/-- C3 counterexample: calling `update` on an already-dead tiger is NOT a
no-op — the dynamic `hunting_success_rate` recomputation happens before the
alive check, so a starved tiger (energy 0, age 100) has its success rate
changed from 0.2 to 0.7925. -/
theorem C3_dead_update_counterexample :
    deadTiger.base.alive = false ∧
    ((Tiger.update deadTiger sampleCtx 0 zeroDraws).1).anim.hunting_success_rate = 317 / 400 ∧
    deadTiger.anim.hunting_success_rate = 1 / 5 ∧
    (Tiger.update deadTiger sampleCtx 0 zeroDraws).1 ≠ deadTiger := by
  have h1 : ((Tiger.update deadTiger sampleCtx 0 zeroDraws).1).anim.hunting_success_rate
      = 317 / 400 := by
    norm_num [Tiger.update, SpeciesBase.updateBase, deadTiger, mkTiger, mkSpeciesBase,
      mkAnimalExt]
  refine ⟨rfl, h1, rfl, fun he => ?_⟩
  rw [he] at h1
  norm_num [deadTiger, mkTiger, mkAnimalExt] at h1

/-- C3 amended: for a dead producer or herbivore, `update` is a strict no-op
(the entity and every other entity are unchanged); for a dead carnivore it
changes exactly the `hunting_success_rate` field, which is recomputed before
the alive check, and mutates nothing else. -/
theorem C3_dead_update_amended :
    (∀ g ctx, g.base.alive = false → Grass.update g ctx = g) ∧
    (∀ c ctx θ, c.base.alive = false → Cow.update c ctx θ = (c, ctx.grass_list)) ∧
    (∀ t ctx θ rolls, t.base.alive = false →
      Tiger.update t ctx θ rolls =
        ({ t with anim := { t.anim with hunting_success_rate :=
            if t.base.energy ≤ t.base.reproduction_energy_cost / 3 then
              1 / 5 + 3 / 5 * (1 - (t.base.age : ℝ) / (t.base.max_age : ℝ))
            else 1 / 5 } }, ctx.cow_list)) := by
  refine ⟨?_, ?_, ?_⟩
  · intro g ctx h
    simp [Grass.update, SpeciesBase.updateBase_of_dead _ h, h]
  · intro c ctx θ h
    simp [Cow.update, SpeciesBase.updateBase_of_dead _ h, h]
  · intro t ctx θ rolls h
    simp [Tiger.update, SpeciesBase.updateBase_of_dead _ h, h]

/-- Witness for the amended C3: a dead grass is exactly unchanged by
`update`. -/
theorem C3_dead_update_amended_witness :
    Grass.update deadGrass sampleCtx = deadGrass :=
  C3_dead_update_amended.1 deadGrass sampleCtx rfl

/-! ### Field-effect lemmas for the energy invariant -/

theorem SpeciesBase.die_energy (s : SpeciesBase) (r : String) : (s.die r).energy = s.energy := by
  unfold SpeciesBase.die; split_ifs <;> rfl

theorem SpeciesBase.die_max_energy (s : SpeciesBase) (r : String) :
    (s.die r).max_energy = s.max_energy := by
  unfold SpeciesBase.die; split_ifs <;> rfl

theorem SpeciesBase.updateBase_alive (s : SpeciesBase) : s.updateBase.alive = s.alive := by
  unfold SpeciesBase.updateBase; split_ifs <;> rfl

theorem SpeciesBase.updateBase_energy (s : SpeciesBase) : s.updateBase.energy = s.energy := by
  unfold SpeciesBase.updateBase; split_ifs <;> rfl

theorem SpeciesBase.updateBase_max_energy (s : SpeciesBase) :
    s.updateBase.max_energy = s.max_energy := by
  unfold SpeciesBase.updateBase; split_ifs <;> rfl

theorem SpeciesBase.age_one_step_energy (s : SpeciesBase) :
    s.age_one_step.energy = s.energy := by
  rw [SpeciesBase.age_one_step_shape]
  split_ifs <;> simp [SpeciesBase.die_energy]

theorem SpeciesBase.age_one_step_max_energy (s : SpeciesBase) :
    s.age_one_step.max_energy = s.max_energy := by
  rw [SpeciesBase.age_one_step_shape]
  split_ifs <;> simp [SpeciesBase.die_max_energy]

theorem SpeciesBase.die_EnergyInv (s : SpeciesBase) (r : String) : (s.die r).EnergyInv := by
  intro ha
  rw [SpeciesBase.die_alive] at ha
  exact absurd ha (by simp)

theorem SpeciesBase.updateBase_EnergyInv (s : SpeciesBase) (h : s.EnergyInv) :
    s.updateBase.EnergyInv := by
  intro ha
  rw [SpeciesBase.updateBase_alive] at ha
  rw [SpeciesBase.updateBase_energy, SpeciesBase.updateBase_max_energy]
  exact h ha

theorem SpeciesBase.age_one_step_EnergyInv (s : SpeciesBase) (h : s.EnergyInv) :
    s.age_one_step.EnergyInv := by
  rw [SpeciesBase.age_one_step_shape]
  split_ifs
  · exact SpeciesBase.die_EnergyInv _ _
  · intro ha
    exact h ha

/-- The growth-floor helper: the adjusted growth rate never drops below 1% of
the base rate (shared by the growth-floor and energy-bound developments). -/
theorem Grass.adjustedGrowthRate_floor (g : Grass) (ctx : Ctx) :
    g.base_growth_rate * (1 / 100) ≤ g.adjustedGrowthRate ctx := by
  simp only [Grass.adjustedGrowthRate]
  exact le_max_left _ _

theorem Cow.eatGrass_energy_le (c : Cow) (gl : List Grass)
    (h : c.base.energy ≤ c.base.max_energy) :
    ((Cow.eatGrass c gl).1).base.energy ≤ ((Cow.eatGrass c gl).1).base.max_energy := by
  rcases Cow.eatGrass_fst_shape c gl with hc | ⟨x, hc⟩ <;> rw [hc]
  · exact h
  · exact min_le_left _ _

theorem Tiger.huntCows_energy_le (t : Tiger) (cl : List Cow) (rolls : ℕ → ℝ)
    (h : t.base.energy ≤ t.base.max_energy) :
    ((Tiger.huntCows t cl rolls).1).base.energy ≤
      ((Tiger.huntCows t cl rolls).1).base.max_energy := by
  rcases Tiger.huntCows_fst_shape t cl rolls with hc | ⟨x, hc⟩ <;> rw [hc]
  · exact h
  · exact min_le_left _ _

theorem Grass.update_EnergyInv (g : Grass) (ctx : Ctx) (hWF : Grass.WF g)
    (h : g.base.EnergyInv) : (Grass.update g ctx).base.EnergyInv := by
  simp only [Grass.update]
  split_ifs with h1 h2
  · exact SpeciesBase.updateBase_EnergyInv _ h
  · exact SpeciesBase.die_EnergyInv _ _
  · refine SpeciesBase.age_one_step_EnergyInv _ ?_
    intro ha
    have halive : g.base.alive = true := by
      rw [← SpeciesBase.updateBase_alive g.base]
      exact ha
    have hb := h halive
    have hfl := Grass.adjustedGrowthRate_floor { g with base := g.base.updateBase } ctx
    have hb9 : g.base_growth_rate = 9 / 10 := hWF.2.2.2.1
    have hrate : 0 < Grass.adjustedGrowthRate { g with base := g.base.updateBase } ctx := by
      refine lt_of_lt_of_le ?_ hfl
      have hpr : ({ g with base := g.base.updateBase } : Grass).base_growth_rate
          = g.base_growth_rate := rfl
      rw [hpr, hb9]
      norm_num
    have hE : (g.base.updateBase).energy = g.base.energy := SpeciesBase.updateBase_energy _
    have hM : (g.base.updateBase).max_energy = g.base.max_energy :=
      SpeciesBase.updateBase_max_energy _
    constructor
    · refine le_min ?_ ?_
      · rw [hM, hWF.1]
        norm_num
      · rw [hE]
        linarith [hb.1]
    · exact min_le_left _ _

theorem Cow.update_EnergyInv_cow (c : Cow) (ctx : Ctx) (θ : ℝ) (hWF : Cow.WF c)
    (h : c.base.EnergyInv) : ((Cow.update c ctx θ).1).base.EnergyInv := by
  simp only [Cow.update]
  split_ifs with h1 h2
  · exact SpeciesBase.updateBase_EnergyInv _ h
  · exact SpeciesBase.die_EnergyInv _ _
  · intro ha
    constructor
    · linarith [not_le.mp h2]
    · rw [SpeciesBase.age_one_step_energy, SpeciesBase.age_one_step_max_energy]
      refine Cow.eatGrass_energy_le _ _ ?_
      have halive : c.base.alive = true := by
        simpa [SpeciesBase.updateBase_alive] using h1
      obtain ⟨p, hcd, hIM⟩ := Cow.intelligentMove_shape { c with base := c.base.updateBase } ctx θ
      rw [hIM]
      simp only [SpeciesBase.updateBase_energy, SpeciesBase.updateBase_max_energy]
      have hcons : c.anim.energy_consumption = 2 := hWF.2.2.2.2.1
      have hb := h halive
      rw [hcons]
      linarith [hb.2]

theorem Tiger.update_EnergyInv_tiger (t : Tiger) (ctx : Ctx) (θ : ℝ) (rolls : ℕ → ℝ)
    (hWF : Tiger.WF t) (h : t.base.EnergyInv) :
    ((Tiger.update t ctx θ rolls).1).base.EnergyInv := by
  simp only [Tiger.update]
  split_ifs with hsr h1 h2 h3 h4
  · exact SpeciesBase.updateBase_EnergyInv _ h
  · exact SpeciesBase.updateBase_EnergyInv _ h
  · exact SpeciesBase.die_EnergyInv _ _
  · intro ha
    constructor
    · linarith [not_le.mp h3]
    · rw [SpeciesBase.age_one_step_energy, SpeciesBase.age_one_step_max_energy]
      refine Tiger.huntCows_energy_le _ _ _ ?_
      have halive : t.base.alive = true := by
        simpa [SpeciesBase.updateBase_alive] using hsr
      have hb := h halive
      have hcons : t.anim.energy_consumption = 20 := hWF.2.2.2.2.1
      obtain ⟨p, hcd, hIM⟩ := Tiger.intelligentMove_shape_tiger
        { t with base := t.base.updateBase,
                 anim := { t.anim with hunting_success_rate :=
                   1 / 5 + 3 / 5 * (1 - ((t.base.updateBase).age : ℝ)
                     / ((t.base.updateBase).max_age : ℝ)) } } ctx θ
      rw [hIM]
      simp only [SpeciesBase.updateBase_energy, SpeciesBase.updateBase_max_energy]
      rw [hcons]
      linarith [hb.2]
  · exact SpeciesBase.die_EnergyInv _ _
  · intro ha
    constructor
    · linarith [not_le.mp h4]
    · rw [SpeciesBase.age_one_step_energy, SpeciesBase.age_one_step_max_energy]
      refine Tiger.huntCows_energy_le _ _ _ ?_
      have halive : t.base.alive = true := by
        simpa [SpeciesBase.updateBase_alive] using hsr
      have hb := h halive
      have hcons : t.anim.energy_consumption = 20 := hWF.2.2.2.2.1
      obtain ⟨p, hcd, hIM⟩ := Tiger.intelligentMove_shape_tiger
        { t with base := t.base.updateBase,
                 anim := { t.anim with hunting_success_rate := 1 / 5 } } ctx θ
      rw [hIM]
      simp only [SpeciesBase.updateBase_energy, SpeciesBase.updateBase_max_energy]
      rw [hcons]
      linarith [hb.2]

theorem Grass.reproduce_EnergyInv (g : Grass) (ctx : Ctx) (roll dx dy : ℝ) (noid : ℕ)
    (hWF : Grass.WF g) (h : g.base.EnergyInv) :
    ((Grass.reproduce g ctx roll dx dy noid).1).base.EnergyInv ∧
    ∀ off, (Grass.reproduce g ctx roll dx dy noid).2 = some off → off.base.EnergyInv := by
  have hcost : g.base.reproduction_energy_cost = 40 := hWF.2.2.1
  simp only [Grass.reproduce]
  split_ifs with h1 h2
  · exact ⟨h, by simp⟩
  · constructor
    · intro ha
      have hb := h h1.1.1
      have hge := h1.1.2.1
      rw [hcost] at hge
      constructor
      · show (0 : ℝ) ≤ g.base.energy - g.base.reproduction_energy_cost
        rw [hcost]
        linarith
      · show g.base.energy - g.base.reproduction_energy_cost ≤ g.base.max_energy
        rw [hcost]
        linarith [hb.2]
    · intro off hoff
      simp only [Option.some.injEq] at hoff
      rw [← hoff]
      intro _
      norm_num [mkGrass, mkSpeciesBase]
  · exact ⟨h, by simp⟩

theorem Cow.reproduce_EnergyInv_cow (c : Cow) (ctx : Ctx) (dx dy : ℝ) (noid : ℕ)
    (hWF : Cow.WF c) (h : c.base.EnergyInv) :
    ((Cow.reproduce c ctx dx dy noid).1).base.EnergyInv ∧
    ∀ off, (Cow.reproduce c ctx dx dy noid).2 = some off → off.base.EnergyInv := by
  have hcost : c.base.reproduction_energy_cost = 400 := hWF.2.2.1
  simp only [Cow.reproduce]
  split_ifs with h1
  · constructor
    · intro ha
      have hb := h h1.1.1
      have hge := h1.1.2.1
      rw [hcost] at hge
      constructor
      · show (0 : ℝ) ≤ c.base.energy - c.base.reproduction_energy_cost
        rw [hcost]
        linarith
      · show c.base.energy - c.base.reproduction_energy_cost ≤ c.base.max_energy
        rw [hcost]
        linarith [hb.2]
    · intro off hoff
      simp only [Option.some.injEq] at hoff
      rw [← hoff]
      intro _
      norm_num [mkCow, mkSpeciesBase]
  · exact ⟨h, by simp⟩

theorem Tiger.reproduce_EnergyInv_tiger (t : Tiger) (ctx : Ctx) (dx dy : ℝ) (noid : ℕ)
    (hWF : Tiger.WF t) (h : t.base.EnergyInv) :
    ((Tiger.reproduce t ctx dx dy noid).1).base.EnergyInv ∧
    ∀ off, (Tiger.reproduce t ctx dx dy noid).2 = some off → off.base.EnergyInv := by
  have hcost : t.base.reproduction_energy_cost = 4000 := hWF.2.2.1
  simp only [Tiger.reproduce]
  split_ifs with h1
  · constructor
    · intro ha
      have hb := h h1.1.1
      have hge := h1.1.2.1
      rw [hcost] at hge
      constructor
      · show (0 : ℝ) ≤ t.base.energy - t.base.reproduction_energy_cost
        rw [hcost]
        linarith
      · show t.base.energy - t.base.reproduction_energy_cost ≤ t.base.max_energy
        rw [hcost]
        linarith [hb.2]
    · intro off hoff
      simp only [Option.some.injEq] at hoff
      rw [← hoff]
      intro _
      norm_num [mkTiger, mkSpeciesBase]
  · exact ⟨h, by simp⟩

/-- C1: while alive, `0 ≤ energy ≤ max_energy`, at construction and preserved
by every `update` and every `reproduce` (parent and offspring); and every
energy-gain operation (producer growth, herbivore eating, carnivore hunting)
clamps the result to `max_energy`. -/
theorem C1_energy_bounds :
    (∀ oid pos, (mkGrass oid pos).base.EnergyInv) ∧
    (∀ oid pos, (mkCow oid pos).base.EnergyInv) ∧
    (∀ oid pos, (mkTiger oid pos).base.EnergyInv) ∧
    (∀ g ctx, Grass.WF g → g.base.EnergyInv → (Grass.update g ctx).base.EnergyInv) ∧
    (∀ c ctx θ, Cow.WF c → c.base.EnergyInv → ((Cow.update c ctx θ).1).base.EnergyInv) ∧
    (∀ t ctx θ rolls, Tiger.WF t → t.base.EnergyInv →
      ((Tiger.update t ctx θ rolls).1).base.EnergyInv) ∧
    (∀ g ctx roll dx dy noid, Grass.WF g → g.base.EnergyInv →
      ((Grass.reproduce g ctx roll dx dy noid).1).base.EnergyInv ∧
      ∀ off, (Grass.reproduce g ctx roll dx dy noid).2 = some off → off.base.EnergyInv) ∧
    (∀ c ctx dx dy noid, Cow.WF c → c.base.EnergyInv →
      ((Cow.reproduce c ctx dx dy noid).1).base.EnergyInv ∧
      ∀ off, (Cow.reproduce c ctx dx dy noid).2 = some off → off.base.EnergyInv) ∧
    (∀ t ctx dx dy noid, Tiger.WF t → t.base.EnergyInv →
      ((Tiger.reproduce t ctx dx dy noid).1).base.EnergyInv ∧
      ∀ off, (Tiger.reproduce t ctx dx dy noid).2 = some off → off.base.EnergyInv) ∧
    (∀ g ctx, g.base.alive = true → (Grass.update g ctx).base.energy ≤ g.base.max_energy) ∧
    (∀ c gl, ((Cow.eatGrass c gl).1).base.energy = c.base.energy ∨
      ((Cow.eatGrass c gl).1).base.energy ≤ c.base.max_energy) ∧
    (∀ t cl rolls, ((Tiger.huntCows t cl rolls).1).base.energy = t.base.energy ∨
      ((Tiger.huntCows t cl rolls).1).base.energy ≤ t.base.max_energy) := by
  refine ⟨?_, ?_, ?_, Grass.update_EnergyInv, Cow.update_EnergyInv_cow, Tiger.update_EnergyInv_tiger,
    Grass.reproduce_EnergyInv, Cow.reproduce_EnergyInv_cow, Tiger.reproduce_EnergyInv_tiger,
    ?_, ?_, ?_⟩
  · intro oid pos _
    norm_num [mkGrass, mkSpeciesBase]
  · intro oid pos _
    norm_num [mkCow, mkSpeciesBase]
  · intro oid pos _
    norm_num [mkTiger, mkSpeciesBase]
  · intro g ctx halive
    simp only [Grass.update]
    split_ifs with h1 h2
    · rw [SpeciesBase.updateBase_alive] at h1
      simp [halive] at h1
    · rw [SpeciesBase.die_energy, SpeciesBase.age_one_step_energy]
      exact le_of_le_of_eq (min_le_left _ _) (SpeciesBase.updateBase_max_energy _)
    · rw [SpeciesBase.age_one_step_energy]
      exact le_of_le_of_eq (min_le_left _ _) (SpeciesBase.updateBase_max_energy _)
  · intro c gl
    rcases Cow.eatGrass_fst_shape c gl with hc | ⟨x, hc⟩ <;> rw [hc]
    · exact Or.inl rfl
    · exact Or.inr (min_le_left _ _)
  · intro t cl rolls
    rcases Tiger.huntCows_fst_shape t cl rolls with hc | ⟨x, hc⟩ <;> rw [hc]
    · exact Or.inl rfl
    · exact Or.inr (min_le_left _ _)

/-- Witness for C1 at concrete states: a fresh grass satisfies the bound, its
(well-formed) update preserves it, and the concrete update's energy stays at
or below its `max_energy` of 160. -/
theorem C1_energy_bounds_witness :
    Grass.WF sampleGrass ∧ sampleGrass.base.EnergyInv ∧
    (Grass.update sampleGrass sampleCtx).base.EnergyInv ∧
    (Grass.update sampleGrass sampleCtx).base.energy ≤ sampleGrass.base.max_energy := by
  have hWF : Grass.WF sampleGrass := by
    norm_num [Grass.WF, sampleGrass, mkGrass, mkSpeciesBase]
  have hInv : sampleGrass.base.EnergyInv := by
    intro _
    norm_num [sampleGrass, mkGrass, mkSpeciesBase]
  have halive : sampleGrass.base.alive = true := rfl
  exact ⟨hWF, hInv, C1_energy_bounds.2.2.2.1 sampleGrass sampleCtx hWF hInv,
    C1_energy_bounds.2.2.2.2.2.2.2.2.2.1 sampleGrass sampleCtx halive⟩

/-! ### More field-effect lemmas, first-hit eating, and one-step
characterizations used by the two scenario claims -/

theorem SpeciesBase.die_age (s : SpeciesBase) (r : String) : (s.die r).age = s.age := by
  unfold SpeciesBase.die; split_ifs <;> rfl

theorem SpeciesBase.die_position (s : SpeciesBase) (r : String) :
    (s.die r).position = s.position := by
  unfold SpeciesBase.die; split_ifs <;> rfl

theorem SpeciesBase.die_of_alive (s : SpeciesBase) (r : String) (h : s.alive = true) :
    s.die r = { s with alive := false, death_reason := some r } := by
  unfold SpeciesBase.die; simp [h]

theorem SpeciesBase.updateBase_position (s : SpeciesBase) :
    s.updateBase.position = s.position := by
  unfold SpeciesBase.updateBase; split_ifs <;> rfl

theorem SpeciesBase.age_one_step_age (s : SpeciesBase) : s.age_one_step.age = s.age + 1 := by
  rw [SpeciesBase.age_one_step_shape]
  split_ifs <;> simp [SpeciesBase.die_age]

theorem SpeciesBase.age_one_step_of_young (s : SpeciesBase) (h : s.age + 1 < s.max_age) :
    s.age_one_step = { s with age := s.age + 1 } := by
  rw [SpeciesBase.age_one_step_shape, if_neg (by omega)]

theorem Position.distance_self (p : Position) : p.distance_to p = 0 := by
  simp [Position.distance_to]

theorem Cow.eatGrass_no_target (c : Cow) (gl : List Grass)
    (h : ∀ g ∈ gl, ¬ c.eatTarget g) : Cow.eatGrass c gl = (c, gl) := by
  induction gl with
  | nil => rfl
  | cons g rest ih =>
    simp only [Cow.eatGrass]
    split_ifs with hc
    · exact absurd hc (h g (List.mem_cons_self g rest))
    · simp [ih (fun x hx => h x (List.mem_cons_of_mem _ hx))]

theorem Cow.eatGrass_first_hit (c : Cow) (l1 : List Grass) (g : Grass) (l2 : List Grass)
    (h1 : ∀ x ∈ l1, ¬ c.eatTarget x) (h2 : c.eatTarget g) :
    Cow.eatGrass c (l1 ++ g :: l2) =
      ({ c with base := { c.base with
          energy := min c.base.max_energy (c.base.energy + g.base.energy) } },
       l1 ++ { g with base := g.base.die ("Predation by Cow") } :: l2) := by
  induction l1 with
  | nil =>
    simp only [List.nil_append, Cow.eatGrass]
    split_ifs with hc
    · rfl
    · exact absurd h2 hc
  | cons a rest ih =>
    simp only [List.cons_append, Cow.eatGrass]
    split_ifs with hc
    · exact absurd hc (h1 a (List.mem_cons_self a rest))
    · simp [ih (fun x hx => h1 x (List.mem_cons_of_mem _ hx))]

theorem Grass.update_spec (g : Grass) (ctx : Ctx) (halive : g.base.alive = true)
    (hage : g.base.age + 1 < g.base.max_age) :
    Grass.update g ctx = { g with base := { g.base with
      energy := min g.base.max_energy (g.base.energy + g.adjustedGrowthRate ctx),
      age := g.base.age + 1,
      reproduction_cooldown := g.base.reproduction_cooldown - 1 } } := by
  have hrate : Grass.adjustedGrowthRate
      { g with base := { g.base with
        reproduction_cooldown := g.base.reproduction_cooldown - 1 } } ctx
      = g.adjustedGrowthRate ctx := rfl
  simp only [Grass.update, SpeciesBase.updateBase_of_alive _ halive, hrate]
  rw [if_neg (by simp [halive])]
  rw [SpeciesBase.age_one_step_of_young _ (by simpa using hage)]
  rw [if_neg (by simpa using hage)]

theorem moveTowards_self (pos : Position) (speed world_width world_height : ℝ) :
    moveTowards pos pos speed world_width world_height = pos := by
  simp [moveTowards]

theorem Cow.intelligentMove_single (c : Cow) (ctx : Ctx) (θ : ℝ) (g1 : Grass)
    (hgl : ctx.grass_list = [g1])
    (halive : c.base.alive = true)
    (hcd : c.anim.hunting_cooldown = 0)
    (hpos : c.base.position = g1.base.position)
    (hg1 : g1.base.alive = true)
    (hdet : 0 ≤ c.anim.detection_range) :
    c.intelligentMove ctx θ = c := by
  simp only [Cow.intelligentMove, hgl]
  rw [if_neg (by simp [halive])]
  rw [if_neg (by simp [hcd])]
  have hfind : findNearestFood c.base.position c.anim.detection_range
      ([g1].map (fun x => (x.base.position, x.base.alive))) = some g1.base.position := by
    simp [findNearestFood, findNearestFoodAux, hg1, hpos, Position.distance_self, hdet]
  simp only [hfind]
  rw [hpos, moveTowards_self, ← hpos]

theorem Cow.eatGrass_single_hit (c : Cow) (g : Grass) (ht : c.eatTarget g) :
    Cow.eatGrass c [g] =
      ({ c with base := { c.base with
          energy := min c.base.max_energy (c.base.energy + g.base.energy) } },
       [{ g with base := g.base.die ("Predation by Cow") }]) := by
  simp only [Cow.eatGrass]
  split_ifs with hc
  · rfl
  · exact absurd ht hc

theorem Cow.update_eats_single (c : Cow) (ctx : Ctx) (θ : ℝ) (g1 : Grass)
    (hgl : ctx.grass_list = [g1])
    (halive : c.base.alive = true)
    (hg1 : g1.base.alive = true)
    (hpos : c.base.position = g1.base.position)
    (hcd : c.anim.hunting_cooldown = 0)
    (hdet : 0 ≤ c.anim.detection_range)
    (hrange : 0 ≤ c.eating_range) :
    Cow.update c ctx θ =
      (let cEat : Cow := { c with base := { c.base with
          reproduction_cooldown := c.base.reproduction_cooldown - 1,
          energy := min c.base.max_energy
            (c.base.energy - c.anim.energy_consumption + g1.base.energy) } }
       let c4 : Cow := { cEat with base := cEat.base.age_one_step }
       (if c4.base.energy ≤ 0 then { c4 with base := c4.base.die ("Starvation") } else c4,
        [{ g1 with base := g1.base.die ("Predation by Cow") }])) := by
  simp only [Cow.update, SpeciesBase.updateBase_of_alive _ halive]
  rw [if_neg (by simp [halive])]
  have hIM := Cow.intelligentMove_single
    ({ c with base := { c.base with
        reproduction_cooldown := c.base.reproduction_cooldown - 1 } }) ctx θ g1 hgl
    (by simpa using halive) (by simpa using hcd) (by simpa using hpos) hg1
    (by simpa using hdet)
  rw [hIM, hgl]
  rw [Cow.eatGrass_single_hit _ _
    ⟨hg1, by show c.base.position.distance_to g1.base.position ≤ c.eating_range
             rw [hpos, Position.distance_self]
             exact hrange⟩]

theorem scenBUpd_spec (g : Grass) (c : Cow) (world_width world_height θ : ℝ)
    (hga : g.base.alive = true) (hca : c.base.alive = true)
    (hpos : c.base.position = g.base.position)
    (hage : g.base.age + 1 < g.base.max_age)
    (hcd : c.anim.hunting_cooldown = 0)
    (hdet : 0 ≤ c.anim.detection_range)
    (hrange : 0 ≤ c.eating_range) :
    (scenBUpd g c world_width world_height θ).1.base.alive = false ∧
    (scenBUpd g c world_width world_height θ).1.base.death_reason
      = some ("Predation by Cow") ∧
    (scenBUpd g c world_width world_height θ).2.base.energy
      = min c.base.max_energy (c.base.energy - c.anim.energy_consumption
          + (Grass.update g (buildCtx world_width world_height [g] [c] [])).base.energy) ∧
    (scenBUpd g c world_width world_height θ).2.base.age = c.base.age + 1 := by
  have hg1alive : (Grass.update g (buildCtx world_width world_height [g] [c] [])).base.alive
      = true := by
    rw [Grass.update_spec g _ hga hage]
    exact hga
  have hg1pos : c.base.position
      = (Grass.update g (buildCtx world_width world_height [g] [c] [])).base.position := by
    rw [Grass.update_spec g _ hga hage]
    exact hpos
  simp only [scenBUpd]
  rw [Cow.update_eats_single c _ θ _ rfl hca hg1alive hg1pos hcd hdet hrange]
  refine ⟨?_, ?_, ?_, ?_⟩
  · simp [SpeciesBase.die_alive]
  · simp [SpeciesBase.die_of_alive _ _ hg1alive]
  · simp only [apply_ite (fun x : Cow => x.base.energy), SpeciesBase.die_energy,
      SpeciesBase.age_one_step_energy, ite_self]
  · simp only [apply_ite (fun x : Cow => x.base.age), SpeciesBase.die_age,
      SpeciesBase.age_one_step_age, ite_self]

theorem scenBTick_spec (g : Grass) (c : Cow)
    (world_width world_height θ r1 r2 gdx gdy cdx cdy : ℝ)
    (hga : g.base.alive = true) (hca : c.base.alive = true)
    (hpos : c.base.position = g.base.position)
    (hage : g.base.age + 1 < g.base.max_age)
    (hcd : c.anim.hunting_cooldown = 0)
    (hdet : 0 ≤ c.anim.detection_range)
    (hrange : 0 ≤ c.eating_range)
    (hnorep : c.base.age + 1 ≤ 20) :
    scenBTick g c world_width world_height θ r1 r2 gdx gdy cdx cdy
      = scenBUpd g c world_width world_height θ := by
  obtain ⟨hdead, hreason, henergy, hageC⟩ :=
    scenBUpd_spec g c world_width world_height θ hga hca hpos hage hcd hdet hrange
  have hng : ¬ Grass.canReproduce (scenBUpd g c world_width world_height θ).1 r1 := by
    intro hcan
    have := hcan.1.1
    rw [hdead] at this
    exact absurd this (by simp)
  have hnc : ¬ Cow.canReproduce (scenBUpd g c world_width world_height θ).2 := by
    intro hcan
    have := hcan.2
    rw [hageC] at this
    omega
  simp only [scenBTick, if_neg hng, if_neg hnc]

/-- In a context whose position array and object handles hold exactly the
producer itself, the self-exclusion mask empties the array and the optimized
density is 0. -/
theorem Grass.calcDensityOpt_single_self (g : Grass) (ctx : Ctx)
    (hp : ctx.grassPositionsArr = some [g.base.position])
    (ho : ctx.aliveGrassObjs = [g]) :
    g.calcDensityOpt ctx = 0 := by
  simp [Grass.calcDensityOpt, hp, ho, List.findIdx?_cons]

/-- In the one-producer scenario context the adjusted growth rate is the
uncontested one: `max(0.01·b, 2·b)`. -/
theorem Grass.adjustedGrowthRate_single (g : Grass) (c : Cow)
    (world_width world_height : ℝ) (hga : g.base.alive = true) :
    g.adjustedGrowthRate (buildCtx world_width world_height [g] [c] [])
      = max (g.base_growth_rate * (1 / 100)) (g.base_growth_rate * 2) := by
  have hd : g.calcDensity (buildCtx world_width world_height [g] [c] []) = 0 := by
    have := Grass.calcDensityOpt_single_self g
      (buildCtx world_width world_height [g] [c] [])
      (by simp [buildCtx, hga]) (by simp [buildCtx, hga])
    simpa [Grass.calcDensity, buildCtx] using this
  simp only [Grass.adjustedGrowthRate, hd, if_pos]

/-- C2 counterexample: in Scenario B (grass and cow at (10,10), fresh
constructor states), after one tick the producer is dead of "Predation by
Cow" and had pre-death (post-growth) energy 209/5 = 41.8, but the herbivore
ends at 2199/5 = 439.8, NOT at `min(max_energy, 400 + 41.8) = 441.8`: the
tick also deducts the herbivore's `energy_consumption` of 2, so "energy
increased by the producer's pre-death energy" is off by the consumption. -/
theorem C2_scenB_counterexample :
    (scenBTick (mkGrass 0 ⟨10, 10⟩) (mkCow 1 ⟨10, 10⟩)
        800 600 0 1 1 0 0 0 0).1.base.death_reason = some ("Predation by Cow") ∧
    (Grass.update (mkGrass 0 ⟨10, 10⟩)
        (buildCtx 800 600 [mkGrass 0 ⟨10, 10⟩] [mkCow 1 ⟨10, 10⟩] [])).base.energy
      = 209 / 5 ∧
    (scenBTick (mkGrass 0 ⟨10, 10⟩) (mkCow 1 ⟨10, 10⟩)
        800 600 0 1 1 0 0 0 0).2.base.energy = 2199 / 5 ∧
    min (mkCow 1 ⟨10, 10⟩).base.max_energy
      ((mkCow 1 ⟨10, 10⟩).base.energy + 209 / 5) = 2209 / 5 ∧
    (2199 : ℝ) / 5 ≠ 2209 / 5 := by
  have hga : (mkGrass 0 ⟨10, 10⟩).base.alive = true := rfl
  have hca : (mkCow 1 ⟨10, 10⟩).base.alive = true := rfl
  have hage : (mkGrass 0 ⟨10, 10⟩).base.age + 1 < (mkGrass 0 ⟨10, 10⟩).base.max_age := by
    norm_num [mkGrass, mkSpeciesBase]
  have hdet : (0 : ℝ) ≤ (mkCow 1 ⟨10, 10⟩).anim.detection_range := by
    norm_num [mkCow, mkAnimalExt]
  have hrange : (0 : ℝ) ≤ (mkCow 1 ⟨10, 10⟩).eating_range := by
    norm_num [mkCow]
  have htick := scenBTick_spec (mkGrass 0 ⟨10, 10⟩) (mkCow 1 ⟨10, 10⟩) 800 600 0 1 1 0 0 0 0
    hga hca rfl hage rfl hdet hrange (by norm_num [mkCow, mkSpeciesBase])
  have hupd := scenBUpd_spec (mkGrass 0 ⟨10, 10⟩) (mkCow 1 ⟨10, 10⟩) 800 600 0
    hga hca rfl hage rfl hdet hrange
  have hgE : (Grass.update (mkGrass 0 ⟨10, 10⟩)
      (buildCtx 800 600 [mkGrass 0 ⟨10, 10⟩] [mkCow 1 ⟨10, 10⟩] [])).base.energy
      = 209 / 5 := by
    rw [Grass.update_spec _ _ hga hage]
    show min (mkGrass 0 ⟨10, 10⟩).base.max_energy ((mkGrass 0 ⟨10, 10⟩).base.energy
      + Grass.adjustedGrowthRate (mkGrass 0 ⟨10, 10⟩)
          (buildCtx 800 600 [mkGrass 0 ⟨10, 10⟩] [mkCow 1 ⟨10, 10⟩] [])) = 209 / 5
    rw [Grass.adjustedGrowthRate_single _ _ _ _ hga]
    have hmax : max ((mkGrass 0 ⟨10, 10⟩).base_growth_rate * (1 / 100))
        ((mkGrass 0 ⟨10, 10⟩).base_growth_rate * 2) = 9 / 5 := by
      rw [max_eq_right (by norm_num [mkGrass])]
      norm_num [mkGrass]
    rw [hmax]
    rw [min_eq_right (by norm_num [mkGrass, mkSpeciesBase])]
    norm_num [mkGrass, mkSpeciesBase]
  refine ⟨?_, hgE, ?_, ?_, by norm_num⟩
  · rw [htick]
    exact hupd.2.1
  · rw [htick, hupd.2.2.1, hgE]
    rw [min_eq_right (by norm_num [mkCow, mkSpeciesBase, mkAnimalExt])]
    norm_num [mkCow, mkSpeciesBase, mkAnimalExt]
  · rw [min_eq_right (by norm_num [mkCow, mkSpeciesBase])]
    norm_num [mkCow, mkSpeciesBase]

/-- C2 amended: the herbivore consumes exactly the first alive producer in
list order within `eating_range`, deterministically, stopping after the first
hit (energy gain clamped, prey marked "Predation by Cow"); and in Scenario B
(producer and herbivore alive at the same position, producer not reaching
`max_age` this tick, herbivore not on hunting cooldown and too young to
reproduce), after one tick the producer is dead with reason "Predation by
Cow" and the herbivore's energy equals
`min(max_energy, energy − energy_consumption + producer's pre-death
(post-growth) energy)` — i.e. the gain is the pre-death energy clamped, net
of the tick's energy consumption. -/
theorem C2_first_hit_amended :
    (∀ (c : Cow) (gl : List Grass), (∀ x ∈ gl, ¬ c.eatTarget x) →
      Cow.eatGrass c gl = (c, gl)) ∧
    (∀ (c : Cow) (l1 : List Grass) (g : Grass) (l2 : List Grass),
      (∀ x ∈ l1, ¬ c.eatTarget x) → c.eatTarget g →
      Cow.eatGrass c (l1 ++ g :: l2) =
        ({ c with base := { c.base with
            energy := min c.base.max_energy (c.base.energy + g.base.energy) } },
         l1 ++ { g with base := g.base.die ("Predation by Cow") } :: l2)) ∧
    (∀ (g : Grass) (c : Cow) (world_width world_height θ r1 r2 gdx gdy cdx cdy : ℝ),
      g.base.alive = true → c.base.alive = true →
      c.base.position = g.base.position →
      g.base.age + 1 < g.base.max_age →
      c.anim.hunting_cooldown = 0 →
      0 ≤ c.anim.detection_range → 0 ≤ c.eating_range →
      c.base.age + 1 ≤ 20 →
      (scenBTick g c world_width world_height θ r1 r2 gdx gdy cdx cdy).1.base.alive
          = false ∧
        (scenBTick g c world_width world_height θ r1 r2 gdx gdy
            cdx cdy).1.base.death_reason = some ("Predation by Cow") ∧
        (scenBTick g c world_width world_height θ r1 r2 gdx gdy cdx cdy).2.base.energy
          = min c.base.max_energy (c.base.energy - c.anim.energy_consumption
              + (Grass.update g
                  (buildCtx world_width world_height [g] [c] [])).base.energy)) := by
  refine ⟨Cow.eatGrass_no_target, Cow.eatGrass_first_hit, ?_⟩
  intro g c world_width world_height θ r1 r2 gdx gdy cdx cdy hga hca hpos hage hcd hdet
    hrange hnorep
  rw [scenBTick_spec g c world_width world_height θ r1 r2 gdx gdy cdx cdy
    hga hca hpos hage hcd hdet hrange hnorep]
  obtain ⟨h1, h2, h3, _⟩ :=
    scenBUpd_spec g c world_width world_height θ hga hca hpos hage hcd hdet hrange
  exact ⟨h1, h2, h3⟩

/-- Witness for the amended C2 at the concrete Scenario B instance. -/
theorem C2_first_hit_amended_witness :
    (scenBTick (mkGrass 0 ⟨10, 10⟩) (mkCow 1 ⟨10, 10⟩)
        800 600 0 1 1 0 0 0 0).1.base.alive = false ∧
    (scenBTick (mkGrass 0 ⟨10, 10⟩) (mkCow 1 ⟨10, 10⟩)
        800 600 0 1 1 0 0 0 0).1.base.death_reason = some ("Predation by Cow") ∧
    (scenBTick (mkGrass 0 ⟨10, 10⟩) (mkCow 1 ⟨10, 10⟩)
        800 600 0 1 1 0 0 0 0).2.base.energy
      = min (mkCow 1 ⟨10, 10⟩).base.max_energy
          ((mkCow 1 ⟨10, 10⟩).base.energy - (mkCow 1 ⟨10, 10⟩).anim.energy_consumption
            + (Grass.update (mkGrass 0 ⟨10, 10⟩)
                (buildCtx 800 600 [mkGrass 0 ⟨10, 10⟩]
                  [mkCow 1 ⟨10, 10⟩] [])).base.energy) := by
  exact C2_first_hit_amended.2.2 (mkGrass 0 ⟨10, 10⟩) (mkCow 1 ⟨10, 10⟩) 800 600 0 1 1 0 0 0 0
    rfl rfl rfl (by norm_num [mkGrass, mkSpeciesBase]) rfl
    (by norm_num [mkCow, mkAnimalExt]) (by norm_num [mkCow])
    (by norm_num [mkCow, mkSpeciesBase])

/-! ### Scenario A: the lone tiger's trajectory -/

theorem SpeciesBase.die_reproduction_cooldown (s : SpeciesBase) (r : String) :
    (s.die r).reproduction_cooldown = s.reproduction_cooldown := by
  unfold SpeciesBase.die; split_ifs <;> rfl

theorem SpeciesBase.die_cost (s : SpeciesBase) (r : String) :
    (s.die r).reproduction_energy_cost = s.reproduction_energy_cost := by
  unfold SpeciesBase.die; split_ifs <;> rfl

theorem SpeciesBase.die_max_age (s : SpeciesBase) (r : String) :
    (s.die r).max_age = s.max_age := by
  unfold SpeciesBase.die; split_ifs <;> rfl

theorem SpeciesBase.age_one_step_reproduction_cooldown (s : SpeciesBase) :
    s.age_one_step.reproduction_cooldown = s.reproduction_cooldown := by
  rw [SpeciesBase.age_one_step_shape]
  split_ifs <;> simp [SpeciesBase.die_reproduction_cooldown]

theorem SpeciesBase.age_one_step_cost (s : SpeciesBase) :
    s.age_one_step.reproduction_energy_cost = s.reproduction_energy_cost := by
  rw [SpeciesBase.age_one_step_shape]
  split_ifs <;> simp [SpeciesBase.die_cost]

theorem SpeciesBase.age_one_step_max_age (s : SpeciesBase) :
    s.age_one_step.max_age = s.max_age := by
  rw [SpeciesBase.age_one_step_shape]
  split_ifs <;> simp [SpeciesBase.die_max_age]

theorem SpeciesBase.age_one_step_of_old (s : SpeciesBase) (h : s.age + 1 ≥ s.max_age) :
    s.age_one_step = ({ s with age := s.age + 1 } : SpeciesBase).die ("Old age") := by
  rw [SpeciesBase.age_one_step_shape, if_pos (by simpa using h)]

theorem Tiger.huntCows_nil (t : Tiger) (rolls : ℕ → ℝ) : Tiger.huntCows t [] rolls = (t, []) :=
  rfl

theorem Tiger.update_empty_spec (t : Tiger) (ctx : Ctx) (θ : ℝ) (rolls : ℕ → ℝ)
    (hcl : ctx.cow_list = [])
    (halive : t.base.alive = true) :
    ∃ p hcd,
      (Tiger.update t ctx θ rolls).1 =
        (let hsr1 : ℝ :=
           if t.base.energy ≤ t.base.reproduction_energy_cost / 3 then
             1 / 5 + 3 / 5 * (1 - (t.base.age : ℝ) / (t.base.max_age : ℝ))
           else 1 / 5
         let b1 : SpeciesBase :=
           { t.base with
             position := p,
             reproduction_cooldown := t.base.reproduction_cooldown - 1,
             energy := t.base.energy - t.anim.energy_consumption }
         let t5 : Tiger :=
           { base := b1.age_one_step,
             anim := { t.anim with hunting_cooldown := hcd, hunting_success_rate := hsr1 } }
         if t5.base.energy ≤ 0 then { t5 with base := t5.base.die ("Starvation") } else t5) ∧
      (Tiger.update t ctx θ rolls).2 = [] := by
  simp only [Tiger.update, SpeciesBase.updateBase_of_alive _ halive, hcl]
  rw [if_neg (by simp [halive])]
  obtain ⟨p, hcd, hIM⟩ := Tiger.intelligentMove_shape_tiger
    ({ base := { t.base with reproduction_cooldown := t.base.reproduction_cooldown - 1 },
       anim := { t.anim with hunting_success_rate :=
         if t.base.energy ≤ t.base.reproduction_energy_cost / 3 then
           1 / 5 + 3 / 5 * (1 - (t.base.age : ℝ) / (t.base.max_age : ℝ))
         else 1 / 5 } } : Tiger) ctx θ
  rw [hIM]
  exact ⟨p, hcd, rfl, rfl⟩

theorem Tiger.update_empty_young_spec (t : Tiger) (world_width world_height θ : ℝ)
    (halive : t.base.alive = true)
    (hageOK : t.base.age + 1 < t.base.max_age) :
    ∃ p hcd,
      (Tiger.update t (loneTigerCtx world_width world_height) θ zeroDraws).1 =
        (let hsr1 : ℝ :=
           if t.base.energy ≤ t.base.reproduction_energy_cost / 3 then
             1 / 5 + 3 / 5 * (1 - (t.base.age : ℝ) / (t.base.max_age : ℝ))
           else 1 / 5
         let Y : SpeciesBase :=
           { t.base with
             position := p,
             reproduction_cooldown := t.base.reproduction_cooldown - 1,
             energy := t.base.energy - t.anim.energy_consumption,
             age := t.base.age + 1 }
         let A : AnimalExt :=
           { t.anim with hunting_cooldown := hcd, hunting_success_rate := hsr1 }
         if t.base.energy - t.anim.energy_consumption ≤ 0 then
           ({ base := { Y with alive := false, death_reason := some ("Starvation") },
              anim := A } : Tiger)
         else ({ base := Y, anim := A } : Tiger)) := by
  obtain ⟨p, hcd, hu1, -⟩ :=
    Tiger.update_empty_spec t (loneTigerCtx world_width world_height) θ zeroDraws rfl halive
  refine ⟨p, hcd, ?_⟩
  rw [hu1]
  have hyoung := SpeciesBase.age_one_step_of_young
    ({ t.base with
       position := p,
       reproduction_cooldown := t.base.reproduction_cooldown - 1,
       energy := t.base.energy - t.anim.energy_consumption } : SpeciesBase) hageOK
  simp only [hyoung]
  split_ifs with h1 h2 h3
  all_goals first
    | rfl
    | rw [SpeciesBase.die_of_alive
        ({ t.base with
           position := p,
           reproduction_cooldown := t.base.reproduction_cooldown - 1,
           energy := t.base.energy - t.anim.energy_consumption,
           age := t.base.age + 1 } : SpeciesBase) ("Starvation") halive]

theorem tigerStep_survive (t : Tiger) (world_width world_height θ : ℝ)
    (halive : t.base.alive = true)
    (hageOK : t.base.age + 1 < t.base.max_age)
    (hEpos : 0 < t.base.energy - t.anim.energy_consumption)
    (hnorep : ¬(t.base.energy - t.anim.energy_consumption
        ≥ t.base.reproduction_energy_cost * 2
      ∧ t.base.reproduction_cooldown - 1 = 0 ∧ t.base.age + 1 > 30)) :
    (tigerStep t world_width world_height θ).base.alive = true ∧
    (tigerStep t world_width world_height θ).base.energy
      = t.base.energy - t.anim.energy_consumption ∧
    (tigerStep t world_width world_height θ).base.age = t.base.age + 1 ∧
    (tigerStep t world_width world_height θ).base.reproduction_cooldown
      = t.base.reproduction_cooldown - 1 ∧
    (tigerStep t world_width world_height θ).base.max_age = t.base.max_age ∧
    (tigerStep t world_width world_height θ).base.reproduction_energy_cost
      = t.base.reproduction_energy_cost ∧
    (tigerStep t world_width world_height θ).anim.energy_consumption
      = t.anim.energy_consumption := by
  obtain ⟨p, hcd, hu⟩ :=
    Tiger.update_empty_young_spec t world_width world_height θ halive hageOK
  have hcanr : ¬ Tiger.canReproduce
      ({ base := { t.base with
           position := p,
           reproduction_cooldown := t.base.reproduction_cooldown - 1,
           energy := t.base.energy - t.anim.energy_consumption,
           age := t.base.age + 1 },
         anim := { t.anim with hunting_cooldown := hcd, hunting_success_rate :=
           if t.base.energy ≤ t.base.reproduction_energy_cost / 3 then
             1 / 5 + 3 / 5 * (1 - (t.base.age : ℝ) / (t.base.max_age : ℝ))
           else 1 / 5 } } : Tiger) := by
    rintro ⟨⟨-, hge, hcd0⟩, hage30⟩
    exact hnorep ⟨hge, Nat.le_zero.mp hcd0, hage30⟩
  have hstep : tigerStep t world_width world_height θ =
      ({ base := { t.base with
           position := p,
           reproduction_cooldown := t.base.reproduction_cooldown - 1,
           energy := t.base.energy - t.anim.energy_consumption,
           age := t.base.age + 1 },
         anim := { t.anim with hunting_cooldown := hcd, hunting_success_rate :=
           if t.base.energy ≤ t.base.reproduction_energy_cost / 3 then
             1 / 5 + 3 / 5 * (1 - (t.base.age : ℝ) / (t.base.max_age : ℝ))
           else 1 / 5 } } : Tiger) := by
    simp only [tigerStep]
    rw [hu]
    simp only []
    rw [if_neg (not_le.mpr hEpos)]
    rw [if_neg hcanr]
  rw [hstep]
  exact ⟨halive, rfl, rfl, rfl, rfl, rfl, rfl⟩

theorem tigerStep_starve (t : Tiger) (world_width world_height θ : ℝ)
    (halive : t.base.alive = true)
    (hageOK : t.base.age + 1 < t.base.max_age)
    (hEneg : t.base.energy - t.anim.energy_consumption ≤ 0) :
    (tigerStep t world_width world_height θ).base.alive = false ∧
    (tigerStep t world_width world_height θ).base.death_reason = some ("Starvation") := by
  obtain ⟨p, hcd, hu⟩ :=
    Tiger.update_empty_young_spec t world_width world_height θ halive hageOK
  have hstep : tigerStep t world_width world_height θ =
      ({ base := { t.base with
           position := p,
           reproduction_cooldown := t.base.reproduction_cooldown - 1,
           energy := t.base.energy - t.anim.energy_consumption,
           age := t.base.age + 1,
           alive := false,
           death_reason := some ("Starvation") },
         anim := { t.anim with hunting_cooldown := hcd, hunting_success_rate :=
           if t.base.energy ≤ t.base.reproduction_energy_cost / 3 then
             1 / 5 + 3 / 5 * (1 - (t.base.age : ℝ) / (t.base.max_age : ℝ))
           else 1 / 5 } } : Tiger) := by
    simp only [tigerStep]
    rw [hu]
    simp only []
    rw [if_pos hEneg]
    rw [if_neg (by rintro ⟨⟨ha, -, -⟩, -⟩; exact absurd ha (by simp))]
  rw [hstep]
  exact ⟨rfl, rfl⟩

theorem Tiger.update_dead_fst (t : Tiger) (ctx : Ctx) (θ : ℝ) (rolls : ℕ → ℝ)
    (h : t.base.alive = false) :
    (Tiger.update t ctx θ rolls).1 =
      { t with anim := { t.anim with hunting_success_rate :=
          if t.base.energy ≤ t.base.reproduction_energy_cost / 3 then
            1 / 5 + 3 / 5 * (1 - (t.base.age : ℝ) / (t.base.max_age : ℝ))
          else 1 / 5 } } := by
  simp [Tiger.update, SpeciesBase.updateBase_of_dead _ h, h]

theorem tigerStep_dead (t : Tiger) (world_width world_height θ : ℝ)
    (h : t.base.alive = false) :
    (tigerStep t world_width world_height θ).base = t.base := by
  simp only [tigerStep]
  rw [Tiger.update_dead_fst _ _ _ _ h]
  rw [if_neg (by rintro ⟨⟨ha, -, -⟩, -⟩; simp_all)]

theorem tigerStep_reproduce (t : Tiger) (world_width world_height θ : ℝ)
    (halive : t.base.alive = true)
    (hageOK : t.base.age + 1 < t.base.max_age)
    (hEpos : 0 < t.base.energy - t.anim.energy_consumption)
    (hge : t.base.energy - t.anim.energy_consumption ≥ t.base.reproduction_energy_cost * 2)
    (hcd1 : t.base.reproduction_cooldown - 1 = 0)
    (hage30 : t.base.age + 1 > 30) :
    (tigerStep t world_width world_height θ).base.alive = true ∧
    (tigerStep t world_width world_height θ).base.energy
      = t.base.energy - t.anim.energy_consumption - t.base.reproduction_energy_cost ∧
    (tigerStep t world_width world_height θ).base.age = t.base.age + 1 ∧
    (tigerStep t world_width world_height θ).base.reproduction_cooldown = 800 ∧
    (tigerStep t world_width world_height θ).base.max_age = t.base.max_age ∧
    (tigerStep t world_width world_height θ).base.reproduction_energy_cost
      = t.base.reproduction_energy_cost ∧
    (tigerStep t world_width world_height θ).anim.energy_consumption
      = t.anim.energy_consumption := by
  obtain ⟨p, hcd, hu⟩ :=
    Tiger.update_empty_young_spec t world_width world_height θ halive hageOK
  have hcanr : Tiger.canReproduce
      ({ base := { t.base with
           position := p,
           reproduction_cooldown := t.base.reproduction_cooldown - 1,
           energy := t.base.energy - t.anim.energy_consumption,
           age := t.base.age + 1 },
         anim := { t.anim with hunting_cooldown := hcd, hunting_success_rate :=
           if t.base.energy ≤ t.base.reproduction_energy_cost / 3 then
             1 / 5 + 3 / 5 * (1 - (t.base.age : ℝ) / (t.base.max_age : ℝ))
           else 1 / 5 } } : Tiger) :=
    ⟨⟨halive, hge, Nat.le_of_eq hcd1⟩, hage30⟩
  have hstep : tigerStep t world_width world_height θ =
      (Tiger.reproduce
        ({ base := { t.base with
             position := p,
             reproduction_cooldown := t.base.reproduction_cooldown - 1,
             energy := t.base.energy - t.anim.energy_consumption,
             age := t.base.age + 1 },
           anim := { t.anim with hunting_cooldown := hcd, hunting_success_rate :=
             if t.base.energy ≤ t.base.reproduction_energy_cost / 3 then
               1 / 5 + 3 / 5 * (1 - (t.base.age : ℝ) / (t.base.max_age : ℝ))
             else 1 / 5 } } : Tiger)
        (loneTigerCtx world_width world_height) 0 0 1).1 := by
    simp only [tigerStep]
    rw [hu]
    simp only []
    rw [if_neg (not_le.mpr hEpos)]
    rw [if_pos hcanr]
  rw [hstep]
  simp only [Tiger.reproduce]
  rw [if_pos hcanr]
  exact ⟨halive, rfl, rfl, rfl, rfl, rfl, rfl⟩

theorem tigerRun_add (t : Tiger) (world_width world_height : ℝ) (θs : ℕ → ℝ) (n m : ℕ) :
    tigerRun t world_width world_height θs (n + m)
      = tigerRun (tigerRun t world_width world_height θs n) world_width world_height
          (fun i => θs (n + i)) m := by
  induction m with
  | zero => rfl
  | succ m ih =>
    show tigerStep (tigerRun t world_width world_height θs (n + m)) world_width world_height
        (θs (n + m))
      = tigerStep (tigerRun (tigerRun t world_width world_height θs n) world_width world_height
          (fun i => θs (n + i)) m) world_width world_height (θs (n + m))
    rw [ih]

theorem tigerRun_decay (t : Tiger) (world_width world_height : ℝ) (θs : ℕ → ℝ)
    (E e C : ℝ) (a cd M : ℕ)
    (halive : t.base.alive = true) (hE : t.base.energy = E) (hage : t.base.age = a)
    (hcd : t.base.reproduction_cooldown = cd) (hC : t.base.reproduction_energy_cost = C)
    (hM : t.base.max_age = M) (he : t.anim.energy_consumption = e) :
    ∀ k : ℕ,
      (∀ j : ℕ, 1 ≤ j → j ≤ k →
        0 < E - j * e ∧ a + j < M ∧
        ¬(E - j * e ≥ C * 2 ∧ cd ≤ j ∧ a + j > 30)) →
      (tigerRun t world_width world_height θs k).base.alive = true ∧
      (tigerRun t world_width world_height θs k).base.energy = E - k * e ∧
      (tigerRun t world_width world_height θs k).base.age = a + k ∧
      (tigerRun t world_width world_height θs k).base.reproduction_cooldown = cd - k ∧
      (tigerRun t world_width world_height θs k).base.reproduction_energy_cost = C ∧
      (tigerRun t world_width world_height θs k).base.max_age = M ∧
      (tigerRun t world_width world_height θs k).anim.energy_consumption = e := by
  intro k
  induction k with
  | zero =>
    intro _
    refine ⟨halive, ?_, ?_, ?_, hC, hM, he⟩
    · show t.base.energy = E - ((0 : ℕ) : ℝ) * e
      rw [hE]
      push_cast
      ring
    · show t.base.age = a + 0
      rw [hage]
      omega
    · show t.base.reproduction_cooldown = cd - 0
      rw [hcd]
      omega
  | succ k ih =>
    intro hcond
    obtain ⟨ia, iE, iage, icd, iC, iM, ie⟩ :=
      ih (fun j h1 h2 => hcond j h1 (Nat.le_succ_of_le h2))
    obtain ⟨c1, c2, c3⟩ := hcond (k + 1) (by omega) (le_refl _)
    have hcast : E - (((k : ℕ) + 1 : ℕ) : ℝ) * e = E - (k : ℝ) * e - e := by
      push_cast
      ring
    have hageOK : (tigerRun t world_width world_height θs k).base.age + 1
        < (tigerRun t world_width world_height θs k).base.max_age := by
      rw [iage, iM]
      omega
    have hEpos : 0 < (tigerRun t world_width world_height θs k).base.energy
        - (tigerRun t world_width world_height θs k).anim.energy_consumption := by
      rw [iE, ie]
      rw [hcast] at c1
      linarith
    have hnorep : ¬((tigerRun t world_width world_height θs k).base.energy
          - (tigerRun t world_width world_height θs k).anim.energy_consumption
          ≥ (tigerRun t world_width world_height θs k).base.reproduction_energy_cost * 2
        ∧ (tigerRun t world_width world_height θs k).base.reproduction_cooldown - 1 = 0
        ∧ (tigerRun t world_width world_height θs k).base.age + 1 > 30) := by
      rintro ⟨hge, hcd0, hage30⟩
      rw [iE, ie, iC] at hge
      rw [icd] at hcd0
      rw [iage] at hage30
      refine c3 ⟨?_, ?_, ?_⟩
      · rw [hcast]
        linarith
      · omega
      · omega
    have hs := tigerStep_survive (tigerRun t world_width world_height θs k)
      world_width world_height (θs k) ia hageOK hEpos hnorep
    obtain ⟨s1, s2, s3, s4, s5, s6, s7⟩ := hs
    refine ⟨s1, ?_, ?_, ?_, ?_, ?_, ?_⟩
    · show (tigerStep (tigerRun t world_width world_height θs k) world_width world_height
          (θs k)).base.energy = E - (((k : ℕ) + 1 : ℕ) : ℝ) * e
      rw [s2, iE, ie, hcast]
    · show (tigerStep (tigerRun t world_width world_height θs k) world_width world_height
          (θs k)).base.age = a + (k + 1)
      rw [s3, iage]
      omega
    · show (tigerStep (tigerRun t world_width world_height θs k) world_width world_height
          (θs k)).base.reproduction_cooldown = cd - (k + 1)
      rw [s4, icd]
      omega
    · show (tigerStep (tigerRun t world_width world_height θs k) world_width world_height
          (θs k)).base.reproduction_energy_cost = C
      rw [s6, iC]
    · show (tigerStep (tigerRun t world_width world_height θs k) world_width world_height
          (θs k)).base.max_age = M
      rw [s5, iM]
    · show (tigerStep (tigerRun t world_width world_height θs k) world_width world_height
          (θs k)).anim.energy_consumption = e
      rw [s7, ie]

/-- C6 amended: a lone carnivore (alive, age 0, no cooldown) with initial
energy `E > 0` and per-tick consumption `e > 0` dies of "Starvation" after
exactly `⌈E/e⌉` ticks and stays dead, and is alive at every earlier tick —
PROVIDED `E < 2 × reproduction_energy_cost` (otherwise it reproduces at age
31, paying the reproduction cost, and dies earlier) and
`⌈E/e⌉ < max_age` (otherwise old age preempts starvation). -/
theorem C6_starvation_amended (t : Tiger) (world_width world_height : ℝ) (θs : ℕ → ℝ)
    (E e : ℝ)
    (halive : t.base.alive = true) (hage : t.base.age = 0)
    (hcd : t.base.reproduction_cooldown = 0)
    (hE : t.base.energy = E) (he : t.anim.energy_consumption = e)
    (he0 : 0 < e) (hE0 : 0 < E)
    (hnorep : E < t.base.reproduction_energy_cost * 2)
    (hM : (⌈E / e⌉).toNat < t.base.max_age) :
    (∀ j, j < (⌈E / e⌉).toNat →
      (tigerRun t world_width world_height θs j).base.alive = true) ∧
    (tigerRun t world_width world_height θs (⌈E / e⌉).toNat).base.alive = false ∧
    (tigerRun t world_width world_height θs (⌈E / e⌉).toNat).base.death_reason
      = some ("Starvation") ∧
    (∀ j, (⌈E / e⌉).toNat ≤ j →
      (tigerRun t world_width world_height θs j).base.alive = false) := by
  have hNpos : 0 < ⌈E / e⌉ := by
    rw [Int.lt_ceil]
    push_cast
    positivity
  have hk1 : 1 ≤ (⌈E / e⌉).toNat := by omega
  have hlt : ∀ j : ℕ, j < (⌈E / e⌉).toNat → (j : ℝ) * e < E := by
    intro j hj
    have hjZ : (j : ℤ) < ⌈E / e⌉ := by omega
    have h2 := Int.lt_ceil.mp hjZ
    push_cast at h2
    exact (lt_div_iff he0).mp h2
  have hge : E ≤ (((⌈E / e⌉).toNat : ℕ) : ℝ) * e := by
    have h2 : (((⌈E / e⌉).toNat : ℕ) : ℤ) = ⌈E / e⌉ := Int.toNat_of_nonneg (le_of_lt hNpos)
    have h3 := Int.le_ceil (E / e)
    have h4 : E / e ≤ (((⌈E / e⌉).toNat : ℕ) : ℝ) := by
      rw [← h2] at h3
      push_cast at h3
      exact h3
    exact (div_le_iff he0).mp h4
  have hdecay := tigerRun_decay t world_width world_height θs E e
    t.base.reproduction_energy_cost 0 0 t.base.max_age halive hE hage hcd rfl rfl he
  have hconds : ∀ kk : ℕ, kk ≤ (⌈E / e⌉).toNat - 1 →
      ∀ j : ℕ, 1 ≤ j → j ≤ kk →
        0 < E - j * e ∧ 0 + j < t.base.max_age ∧
        ¬(E - j * e ≥ t.base.reproduction_energy_cost * 2 ∧ 0 ≤ j ∧ 0 + j > 30) := by
    intro kk hkk j h1 h2
    have hjlt : j < (⌈E / e⌉).toNat := by omega
    have hje := hlt j hjlt
    refine ⟨by linarith, by omega, ?_⟩
    rintro ⟨hge', -, -⟩
    have hjge1 : (1 : ℝ) ≤ (j : ℝ) := by exact_mod_cast h1
    have hee : (1 : ℝ) * e ≤ (j : ℝ) * e := mul_le_mul_of_nonneg_right hjge1 (le_of_lt he0)
    linarith
  have hprev := hdecay ((⌈E / e⌉).toNat - 1) (hconds _ (le_refl _))
  obtain ⟨p1, p2, p3, p4, p5, p6, p7⟩ := hprev
  have hcastk : ((((⌈E / e⌉).toNat - 1 : ℕ)) : ℝ) = (((⌈E / e⌉).toNat : ℕ) : ℝ) - 1 := by
    push_cast [Nat.cast_sub hk1]
    ring
  have hageOK : (tigerRun t world_width world_height θs ((⌈E / e⌉).toNat - 1)).base.age + 1
      < (tigerRun t world_width world_height θs ((⌈E / e⌉).toNat - 1)).base.max_age := by
    rw [p3, p6]
    omega
  have hEneg : (tigerRun t world_width world_height θs ((⌈E / e⌉).toNat - 1)).base.energy
      - (tigerRun t world_width world_height θs
          ((⌈E / e⌉).toNat - 1)).anim.energy_consumption ≤ 0 := by
    rw [p2, p7, hcastk]
    linarith
  have hstarve := tigerStep_starve (tigerRun t world_width world_height θs
    ((⌈E / e⌉).toNat - 1)) world_width world_height (θs ((⌈E / e⌉).toNat - 1))
    p1 hageOK hEneg
  have hkstep : (⌈E / e⌉).toNat = ((⌈E / e⌉).toNat - 1) + 1 := by omega
  have hdead1 : (tigerRun t world_width world_height θs (⌈E / e⌉).toNat).base.alive
      = false := by
    rw [hkstep]
    exact hstarve.1
  have hreason : (tigerRun t world_width world_height θs
      (⌈E / e⌉).toNat).base.death_reason = some ("Starvation") := by
    rw [hkstep]
    exact hstarve.2
  have haux : ∀ m, (tigerRun t world_width world_height θs
      ((⌈E / e⌉).toNat + m)).base.alive = false := by
    intro m
    induction m with
    | zero => exact hdead1
    | succ m ih =>
      have hstep := tigerStep_dead
        (tigerRun t world_width world_height θs ((⌈E / e⌉).toNat + m))
        world_width world_height (θs ((⌈E / e⌉).toNat + m)) ih
      show (tigerStep (tigerRun t world_width world_height θs ((⌈E / e⌉).toNat + m))
        world_width world_height (θs ((⌈E / e⌉).toNat + m))).base.alive = false
      rw [hstep]
      exact ih
  refine ⟨?_, hdead1, hreason, ?_⟩
  · intro j hj
    exact (hdecay j (hconds j (by omega))).1
  · intro j hj
    have hj2 : j = (⌈E / e⌉).toNat + (j - (⌈E / e⌉).toNat) := by omega
    rw [hj2]
    exact haux _

theorem tigerRun_dead_after (t : Tiger) (world_width world_height : ℝ) (θs : ℕ → ℝ)
    (n : ℕ) (h : (tigerRun t world_width world_height θs n).base.alive = false) :
    ∀ m, (tigerRun t world_width world_height θs (n + m)).base.alive = false := by
  intro m
  induction m with
  | zero => exact h
  | succ m ih =>
    have hstep := tigerStep_dead (tigerRun t world_width world_height θs (n + m))
      world_width world_height (θs (n + m)) ih
    show (tigerStep (tigerRun t world_width world_height θs (n + m))
      world_width world_height (θs (n + m))).base.alive = false
    rw [hstep]
    exact ih

/-- C6 counterexample: the spec predicts a lone carnivore is alive at every tick
before `⌈E/e⌉`.  A tiger with starting energy 8700 has `⌈E/e⌉ = 435`, yet it is
already dead at tick 300: at age 31 it still holds `8080 ≥ 2 × 4000` energy, so
it reproduces, pays the 4000 reproduction cost, and starves at tick 235. -/
theorem C6_starvation_counterexample :
    fatTiger.base.energy = 8700 ∧
    fatTiger.anim.energy_consumption = 20 ∧
    (⌈(8700 : ℝ) / 20⌉).toNat = 435 ∧
    (300 : ℕ) < 435 ∧
    (tigerRun fatTiger 100 100 zeroDraws 300).base.alive = false := by
  have hceil : (⌈(8700 : ℝ) / 20⌉) = 435 := by norm_num
  refine ⟨rfl, rfl, by rw [hceil]; rfl, by norm_num, ?_⟩
  have hd1 := tigerRun_decay fatTiger 100 100 zeroDraws 8700 20 4000 0 0 8000
    rfl rfl rfl rfl rfl rfl rfl 30 ?cond1
  case cond1 =>
    intro j h1 h2
    have hjr : (j : ℝ) ≤ 30 := by exact_mod_cast h2
    refine ⟨by linarith, by omega, ?_⟩
    rintro ⟨-, -, h3⟩
    omega
  obtain ⟨ha30, he30, hg30, hc30, hC30, hM30, hn30⟩ := hd1
  have hrun31 : tigerRun fatTiger 100 100 zeroDraws 31
      = tigerStep (tigerRun fatTiger 100 100 zeroDraws 30) 100 100 (zeroDraws 30) := by
    rw [show (31 : ℕ) = 30 + 1 by norm_num]
    rfl
  have hrep := tigerStep_reproduce (tigerRun fatTiger 100 100 zeroDraws 30) 100 100
    (zeroDraws 30) ha30 (by rw [hg30, hM30]; omega)
    (by rw [he30, hn30]; norm_num)
    (by rw [he30, hn30, hC30]; norm_num)
    (by rw [hc30]) (by rw [hg30]; omega)
  obtain ⟨ra, re, rg, rc, rM, rC, rn⟩ := hrep
  have h31a : (tigerRun fatTiger 100 100 zeroDraws 31).base.alive = true := by
    rw [hrun31]; exact ra
  have h31e : (tigerRun fatTiger 100 100 zeroDraws 31).base.energy = 4080 := by
    rw [hrun31, re, he30, hn30, hC30]
    norm_num
  have h31g : (tigerRun fatTiger 100 100 zeroDraws 31).base.age = 31 := by
    rw [hrun31, rg, hg30]
  have h31c : (tigerRun fatTiger 100 100 zeroDraws 31).base.reproduction_cooldown
      = 800 := by
    rw [hrun31]; exact rc
  have h31C : (tigerRun fatTiger 100 100 zeroDraws 31).base.reproduction_energy_cost
      = 4000 := by
    rw [hrun31, rC, hC30]
  have h31M : (tigerRun fatTiger 100 100 zeroDraws 31).base.max_age = 8000 := by
    rw [hrun31, rM, hM30]
  have h31n : (tigerRun fatTiger 100 100 zeroDraws 31).anim.energy_consumption = 20 := by
    rw [hrun31, rn, hn30]
  have hd2 := tigerRun_decay (tigerRun fatTiger 100 100 zeroDraws 31) 100 100
    (fun i => zeroDraws (31 + i)) 4080 20 4000 31 800 8000
    h31a h31e h31g h31c h31C h31M h31n 203 ?cond2
  case cond2 =>
    intro j h1 h2
    have hjr : (j : ℝ) ≤ 203 := by exact_mod_cast h2
    have hjr1 : (1 : ℝ) ≤ (j : ℝ) := by exact_mod_cast h1
    refine ⟨by linarith, by omega, ?_⟩
    rintro ⟨h3, -, -⟩
    linarith
  obtain ⟨b1, b2, b3, b4, b5, b6, b7⟩ := hd2
  have hsplit : tigerRun fatTiger 100 100 zeroDraws 234
      = tigerRun (tigerRun fatTiger 100 100 zeroDraws 31) 100 100
          (fun i => zeroDraws (31 + i)) 203 := by
    rw [show (234 : ℕ) = 31 + 203 by norm_num]
    exact tigerRun_add fatTiger 100 100 zeroDraws 31 203
  have hstarve := tigerStep_starve (tigerRun fatTiger 100 100 zeroDraws 234) 100 100
    (zeroDraws 234)
    (by rw [hsplit]; exact b1)
    (by rw [hsplit, b3, b6]; omega)
    (by rw [hsplit, b2, b7]; norm_num)
  have hrun235 : tigerRun fatTiger 100 100 zeroDraws 235
      = tigerStep (tigerRun fatTiger 100 100 zeroDraws 234) 100 100 (zeroDraws 234) := by
    rw [show (235 : ℕ) = 234 + 1 by norm_num]
    rfl
  have hdead235 : (tigerRun fatTiger 100 100 zeroDraws 235).base.alive = false := by
    rw [hrun235]
    exact hstarve.1
  rw [show (300 : ℕ) = 235 + 65 by norm_num]
  exact tigerRun_dead_after fatTiger 100 100 zeroDraws 235 hdead235 65

/-- Witness for C6: the default tiger (energy 4000, consumption 20, so
`⌈E/e⌉ = 200`) is alive at tick 199 and starves at exactly tick 200. -/
theorem C6_starvation_amended_witness :
    (⌈(4000 : ℝ) / 20⌉).toNat = 200 ∧
    (tigerRun (mkTiger 0 ⟨50, 50⟩) 100 100 zeroDraws 199).base.alive = true ∧
    (tigerRun (mkTiger 0 ⟨50, 50⟩) 100 100 zeroDraws 200).base.alive = false ∧
    (tigerRun (mkTiger 0 ⟨50, 50⟩) 100 100 zeroDraws 200).base.death_reason
      = some ("Starvation") := by
  have hceil : (⌈(4000 : ℝ) / 20⌉) = 200 := by norm_num
  have htn : (⌈(4000 : ℝ) / 20⌉).toNat = 200 := by rw [hceil]; rfl
  have h := C6_starvation_amended (mkTiger 0 ⟨50, 50⟩) 100 100 zeroDraws 4000 20
    rfl rfl rfl rfl rfl (by norm_num) (by norm_num)
    (by norm_num [mkTiger, mkSpeciesBase])
    (by rw [htn]; norm_num [mkTiger, mkSpeciesBase])
  refine ⟨htn, ?_, ?_, ?_⟩
  · exact h.1 199 (by omega)
  · have h2 := h.2.1
    rw [htn] at h2
    exact h2
  · have h2 := h.2.2.1
    rw [htn] at h2
    exact h2

theorem findIdx_oid_at_self (g : Grass) (A B : List Grass)
    (hA : ∀ x ∈ A, (x.base.oid == g.base.oid) = false) :
    (A ++ g :: B).findIdx? (fun x => x.base.oid == g.base.oid) = some A.length := by
  induction A with
  | nil => simp [List.findIdx?_cons]
  | cons a A ih =>
    have ha := hA a (List.mem_cons_self a A)
    rw [List.cons_append, List.findIdx?_cons, ha]
    simp only [cond_false, List.findIdx?_succ]
    rw [ih (fun x hx => hA x (List.mem_cons_of_mem a hx))]
    simp [List.length_cons]

theorem eraseIdx_map_append (f : Grass → Position) (g : Grass) (A B : List Grass) :
    ((A ++ g :: B).map f).eraseIdx A.length = (A ++ B).map f := by
  rw [List.map_append, List.map_cons]
  rw [List.eraseIdx_append_of_length_le (by simp)]
  simp

theorem min_four_mul_eq_iff (q : ℝ) (hq : 0 ≤ q) :
    min 1 (4 * q) = min 1 q ↔ q = 0 ∨ 1 ≤ q := by
  constructor
  · intro h
    by_cases hq1 : 1 ≤ q
    · exact Or.inr hq1
    push_neg at hq1
    left
    rcases le_total 1 (4 * q) with h4 | h4
    · rw [min_eq_left h4, min_eq_right (le_of_lt hq1)] at h
      linarith
    · rw [min_eq_right h4, min_eq_right (le_of_lt hq1)] at h
      linarith
  · intro h
    rcases h with h | h
    · rw [h]
      norm_num
    · rw [min_eq_left (by linarith), min_eq_left h]

theorem Grass.calcDensityOpt_formula (g : Grass) (ctx : Ctx) (A B : List Grass)
    (hobjs : ctx.aliveGrassObjs = A ++ g :: B)
    (harr : ctx.grassPositionsArr = some ((A ++ g :: B).map (fun x => x.base.position)))
    (hA : ∀ x ∈ A, (x.base.oid == g.base.oid) = false)
    (hAB : A ++ B ≠ []) :
    Grass.calcDensityOpt g ctx
      = min 1 (((A ++ B).countP (fun x =>
            decide (g.base.position.distance_to x.base.position
              ≤ g.competition_radius)) : ℝ)
          / (Real.pi * g.competition_radius ^ 2 / 400)) := by
  simp only [Grass.calcDensityOpt, harr, hobjs, Option.getD_some,
    findIdx_oid_at_self g A B hA]
  rw [eraseIdx_map_append]
  rw [if_neg (by simp)]
  rw [if_neg (by simpa using hAB)]
  rw [List.countP_map]
  rfl

theorem Grass.calcDensityFallback_formula (g : Grass) (ctx : Ctx) (L : List Grass)
    (hfilt : ctx.grass_list.filter
        (fun x => !(x.base.oid == g.base.oid) && x.base.alive) = L)
    (hL : L ≠ []) :
    Grass.calcDensityFallback g ctx
      = min 1 ((L.countP (fun x =>
            decide (g.base.position.distance_to x.base.position
              ≤ g.competition_radius)) : ℝ)
          / (Real.pi * g.competition_radius ^ 2 / 100)) := by
  have hgl : ctx.grass_list.isEmpty = false := by
    cases h : ctx.grass_list.isEmpty with
    | false => rfl
    | true => exact absurd (by rw [← hfilt, List.isEmpty_iff.mp h]; rfl) hL
  have hLe : L.isEmpty = false := by
    cases h : L.isEmpty with
    | false => rfl
    | true => exact absurd (List.isEmpty_iff.mp h) hL
  simp only [Grass.calcDensityFallback, hfilt, hgl, hLe, Bool.false_eq_true, if_false]

/-- C9: the claim that the optimized density path (used when the position
array is present) agrees with the fallback linear scan is FALSE; what holds
is: both paths count the same in-radius neighbours `cnt`, but the optimized
path normalises by `π·r²/400` while the fallback normalises by `π·r²/100`,
so the fallback value never exceeds the optimized one, and the two agree
exactly when no neighbour is in range or the fallback ratio already
saturates the `min 1` clamp. -/
theorem C9_density_amended (g : Grass) (ctx : Ctx) (A B : List Grass)
    (hobjs : ctx.aliveGrassObjs = A ++ g :: B)
    (harr : ctx.grassPositionsArr = some ((A ++ g :: B).map (fun x => x.base.position)))
    (hfilt : ctx.grass_list.filter
        (fun x => !(x.base.oid == g.base.oid) && x.base.alive) = A ++ B)
    (hA : ∀ x ∈ A, (x.base.oid == g.base.oid) = false)
    (hr : 0 < g.competition_radius) :
    Grass.calcDensity g ctx
      = min 1 (((A ++ B).countP (fun x =>
            decide (g.base.position.distance_to x.base.position
              ≤ g.competition_radius)) : ℝ)
          / (Real.pi * g.competition_radius ^ 2 / 400)) ∧
    Grass.calcDensityFallback g ctx
      = min 1 (((A ++ B).countP (fun x =>
            decide (g.base.position.distance_to x.base.position
              ≤ g.competition_radius)) : ℝ)
          / (Real.pi * g.competition_radius ^ 2 / 100)) ∧
    Grass.calcDensityFallback g ctx ≤ Grass.calcDensity g ctx ∧
    (Grass.calcDensity g ctx = Grass.calcDensityFallback g ctx ↔
      (A ++ B).countP (fun x =>
          decide (g.base.position.distance_to x.base.position
            ≤ g.competition_radius)) = 0
        ∨ 1 ≤ (((A ++ B).countP (fun x =>
            decide (g.base.position.distance_to x.base.position
              ≤ g.competition_radius)) : ℝ)
          / (Real.pi * g.competition_radius ^ 2 / 100))) := by
  have hπ : (0 : ℝ) < Real.pi := Real.pi_pos
  have hr2 : (0 : ℝ) < g.competition_radius ^ 2 := pow_pos hr 2
  have hn4 : (0 : ℝ) < Real.pi * g.competition_radius ^ 2 / 400 := by
    apply div_pos (mul_pos hπ hr2)
    norm_num
  have hn1 : (0 : ℝ) < Real.pi * g.competition_radius ^ 2 / 100 := by
    apply div_pos (mul_pos hπ hr2)
    norm_num
  have hdisp : Grass.calcDensity g ctx = Grass.calcDensityOpt g ctx := by
    simp [Grass.calcDensity, harr]
  by_cases hAB : A ++ B = []
  · have hA0 : A = [] := by
      cases A with
      | nil => rfl
      | cons a A2 => simp at hAB
    have hB0 : B = [] := by
      rw [hA0] at hAB
      simpa using hAB
    subst hA0
    subst hB0
    have hobjs2 : ctx.aliveGrassObjs = [g] := by simpa using hobjs
    have harr2 : ctx.grassPositionsArr = some [g.base.position] := by simpa using harr
    have hopt0 : Grass.calcDensityOpt g ctx = 0 :=
      Grass.calcDensityOpt_single_self g ctx harr2 hobjs2
    have hfilt2 : ctx.grass_list.filter
        (fun x => !(x.base.oid == g.base.oid) && x.base.alive) = [] := by
      simpa using hfilt
    have hfb0 : Grass.calcDensityFallback g ctx = 0 := by
      simp [Grass.calcDensityFallback, hfilt2]
    refine ⟨?_, ?_, ?_, ?_⟩
    · rw [hdisp, hopt0]
      simp [min_eq_right]
    · rw [hfb0]
      simp [min_eq_right]
    · rw [hdisp, hopt0, hfb0]
    · rw [hdisp, hopt0, hfb0]
      exact ⟨fun _ => Or.inl (by simp), fun _ => rfl⟩
  · have hopte := Grass.calcDensityOpt_formula g ctx A B hobjs harr hA hAB
    have hfbe := Grass.calcDensityFallback_formula g ctx (A ++ B) hfilt hAB
    have hq0 : (0 : ℝ) ≤ (((A ++ B).countP (fun x =>
          decide (g.base.position.distance_to x.base.position
            ≤ g.competition_radius)) : ℕ) : ℝ)
        / (Real.pi * g.competition_radius ^ 2 / 100) :=
      div_nonneg (Nat.cast_nonneg _) hn1.le
    have hne : Real.pi * g.competition_radius ^ 2 ≠ 0 := ne_of_gt (mul_pos hπ hr2)
    have hQq : (((A ++ B).countP (fun x =>
          decide (g.base.position.distance_to x.base.position
            ≤ g.competition_radius)) : ℕ) : ℝ)
          / (Real.pi * g.competition_radius ^ 2 / 400)
        = 4 * ((((A ++ B).countP (fun x =>
          decide (g.base.position.distance_to x.base.position
            ≤ g.competition_radius)) : ℕ) : ℝ)
          / (Real.pi * g.competition_radius ^ 2 / 100)) := by
      field_simp
      ring
    refine ⟨?_, hfbe, ?_, ?_⟩
    · rw [hdisp, hopte]
    · rw [hdisp, hopte, hfbe, hQq]
      exact min_le_min (le_refl 1) (by linarith)
    · rw [hdisp, hopte, hfbe, hQq]
      rw [min_four_mul_eq_iff _ hq0]
      have hqz : ((((A ++ B).countP (fun x =>
            decide (g.base.position.distance_to x.base.position
              ≤ g.competition_radius)) : ℕ) : ℝ)
            / (Real.pi * g.competition_radius ^ 2 / 100) = 0)
          ↔ (A ++ B).countP (fun x =>
            decide (g.base.position.distance_to x.base.position
              ≤ g.competition_radius)) = 0 := by
        constructor
        · intro h
          rcases div_eq_zero_iff.mp h with h | h
          · exact_mod_cast h
          · exact absurd h (ne_of_gt hn1)
        · intro h
          rw [h]
          simp
      rw [hqz]

/-- Witness for C9: the two-grass context instantiates the amended theorem;
the optimized value matches the 400-normalised formula and dominates the
fallback value. -/
theorem C9_density_amended_witness :
    Grass.calcDensity densG0 densCtxOpt
      = min 1 ((([densG1] : List Grass).countP (fun x =>
            decide (densG0.base.position.distance_to x.base.position
              ≤ densG0.competition_radius)) : ℝ)
          / (Real.pi * densG0.competition_radius ^ 2 / 400)) ∧
    Grass.calcDensityFallback densG0 densCtxOpt ≤ Grass.calcDensity densG0 densCtxOpt := by
  have h := C9_density_amended densG0 densCtxOpt [] [densG1] rfl rfl rfl
    (by simp) (by norm_num [densG0, mkGrass])
  exact ⟨h.1, h.2.2.1⟩

/-- C9 counterexample: two grasses at the same point; the optimized path
gives density `400/(900π)` while the fallback gives `100/(900π)` — the two
code paths disagree on the same data. -/
theorem C9_density_counterexample :
    Grass.calcDensityOpt densG0 densCtxOpt = 400 / (Real.pi * 900) ∧
    Grass.calcDensityFallback densG0 densCtxOpt = 100 / (Real.pi * 900) ∧
    Grass.calcDensityOpt densG0 densCtxOpt ≠ Grass.calcDensityFallback densG0 densCtxOpt := by
  have hopt := Grass.calcDensityOpt_formula densG0 densCtxOpt [] [densG1] rfl rfl
    (by simp) (by simp)
  have hfb := Grass.calcDensityFallback_formula densG0 densCtxOpt [densG1] rfl (by simp)
  have hd00 : densG0.base.position.distance_to densG1.base.position = 0 := by
    show Position.distance_to ⟨0, 0⟩ ⟨0, 0⟩ = 0
    exact Position.distance_self ⟨0, 0⟩
  have hptrue : (decide (densG0.base.position.distance_to densG1.base.position
      ≤ densG0.competition_radius)) = true := by
    rw [decide_eq_true_eq, hd00]
    norm_num [densG0, mkGrass]
  have hcnt : ([densG1] : List Grass).countP (fun x =>
      decide (densG0.base.position.distance_to x.base.position
        ≤ densG0.competition_radius)) = 1 := by
    simp [List.countP_cons, hptrue]
  have hrr : densG0.competition_radius = (30 : ℝ) := rfl
  have hpi3 := Real.pi_gt_three
  have e1 : Grass.calcDensityOpt densG0 densCtxOpt = 400 / (Real.pi * 900) := by
    rw [hopt]
    simp only [List.nil_append, hcnt, Nat.cast_one]
    rw [hrr]
    rw [show ((30 : ℝ) ^ 2) = 900 by norm_num]
    rw [min_eq_right (by rw [div_le_one (by positivity)]; nlinarith)]
    rw [one_div_div]
  have e2 : Grass.calcDensityFallback densG0 densCtxOpt = 100 / (Real.pi * 900) := by
    rw [hfb]
    simp only [hcnt, Nat.cast_one]
    rw [hrr]
    rw [show ((30 : ℝ) ^ 2) = 900 by norm_num]
    rw [min_eq_right (by rw [div_le_one (by positivity)]; nlinarith)]
    rw [one_div_div]
  refine ⟨e1, e2, ?_⟩
  rw [e1, e2]
  intro h
  rw [div_eq_div_iff (by positivity) (by positivity)] at h
  nlinarith [Real.pi_pos]

end
